import Mathlib

/-!
# Sales dashboard controller (`static/app.js`)

A shallow embedding of the browser-side controller: the filter query builder,
the refresh cycle with its loading flag, the polling timer, and the render
pass over an analytics response.  Platform services the script calls
(`URLSearchParams`, timers, the DOM) are modelled by the small pieces of
state the script reads and writes.
-/

namespace Dashboard

/-! ## `URLSearchParams` (platform API; serialisation per the URL standard) -/

/-- The UTF-8 bytes of one code point. -/
def utf8Bytes (c : Char) : List Nat :=
  let n := c.toNat
  if n < 0x80 then [n]
  else if n < 0x800 then [0xC0 + n / 64, 0x80 + n % 64]
  else if n < 0x10000 then [0xE0 + n / 4096, 0x80 + n / 64 % 64, 0x80 + n % 64]
  else [0xF0 + n / 262144, 0x80 + n / 4096 % 64, 0x80 + n / 64 % 64, 0x80 + n % 64]

/-- Bytes the form-urlencoded serialiser emits unchanged:
ASCII letters and digits, and the four marks `*`, `-`, `.`, `_`. -/
def formUnreserved (b : Nat) : Bool :=
  b == 0x2A || b == 0x2D || b == 0x2E || b == 0x5F ||
  (0x30 ≤ b && b ≤ 0x39) || (0x41 ≤ b && b ≤ 0x5A) || (0x61 ≤ b && b ≤ 0x7A)

/-- One upper-case hexadecimal digit. -/
def hexDigit (n : Nat) : Char :=
  if n < 10 then Char.ofNat (48 + n) else Char.ofNat (55 + n)

/-- Form-urlencoded serialisation of one byte: a space becomes `+`, an
unreserved byte stays, every other byte becomes `%XX`. -/
def formEncodeByte (b : Nat) : List Char :=
  if b = 0x20 then ['+']
  else if formUnreserved b then [Char.ofNat b]
  else ['%', hexDigit (b / 16), hexDigit (b % 16)]

/-- Form-urlencoded serialisation of one code point. -/
def formEncodeChar (c : Char) : List Char :=
  (utf8Bytes c).flatMap formEncodeByte

/-- Form-urlencoded serialisation of a string. -/
def formEncode (s : String) : String :=
  String.mk (s.data.flatMap formEncodeChar)

/-- The entry list of a `URLSearchParams` object. -/
abbrev URLSearchParams := List (String × String)

/-- `URLSearchParams.prototype.set` on a list that already holds the name:
the first entry of that name takes the value, later ones are dropped. -/
def URLSearchParams.setFirst (name value : String) : URLSearchParams → URLSearchParams
  | [] => []
  | (k, v) :: rest =>
    if k = name then (name, value) :: rest.filter (fun p => p.1 ≠ name)
    else (k, v) :: URLSearchParams.setFirst name value rest

/-- `URLSearchParams.prototype.set(name, value)`. -/
def URLSearchParams.set (ps : URLSearchParams) (name value : String) : URLSearchParams :=
  if ps.any (fun p => p.1 = name) then URLSearchParams.setFirst name value ps
  else ps ++ [(name, value)]

/-- `URLSearchParams.prototype.toString()`. -/
def URLSearchParams.toString (ps : URLSearchParams) : String :=
  "&".intercalate (ps.map fun p => formEncode p.1 ++ "=" ++ formEncode p.2)

/-! ## Filter state and `buildQueryParams` -/

/-- The values of the four filter controls (`region-select`, `product-select`,
`from-date`, `to-date`). -/
structure FilterState where
  region : String
  product : String
  fromDate : String
  toDate : String
deriving DecidableEq, Repr

/-- The `URLSearchParams` object `buildQueryParams` fills before serialising. -/
def queryEntries (f : FilterState) : URLSearchParams :=
  let params : URLSearchParams := []
  let params := if f.region ≠ "" ∧ f.region ≠ "all" then params.set "region" f.region else params
  let params := if f.product ≠ "" ∧ f.product ≠ "all" then params.set "product" f.product else params
  let params := if f.fromDate ≠ "" then params.set "from" f.fromDate else params
  let params := if f.toDate ≠ "" then params.set "to" f.toDate else params
  params

/-- `buildQueryParams()`. -/
def buildQueryParams (f : FilterState) : String :=
  let params := queryEntries f
  if params.toString ≠ "" then "?" ++ params.toString else ""

/-- Whether a select control (region, product) holds its default. -/
def selectDefault (v : String) : Bool := v = "" || v = "all"

/-- Whether a date control (from, to) holds its default. -/
def dateDefault (v : String) : Bool := v = ""

/-- Every filter at its default. -/
def FilterState.allDefault (f : FilterState) : Bool :=
  selectDefault f.region && selectDefault f.product && dateDefault f.fromDate && dateDefault f.toDate

/-- The non-default filters as key/value pairs, in the fixed order region,
product, from, to. -/
def nonDefaultFilters (f : FilterState) : List (String × String) :=
  (if selectDefault f.region then [] else [("region", f.region)]) ++
  (if selectDefault f.product then [] else [("product", f.product)]) ++
  (if dateDefault f.fromDate then [] else [("from", f.fromDate)]) ++
  (if dateDefault f.toDate then [] else [("to", f.toDate)])

/-- The query string with each value written verbatim after its key. -/
def verbatimQuery (f : FilterState) : String :=
  if nonDefaultFilters f = [] then ""
  else "?" ++ "&".intercalate ((nonDefaultFilters f).map fun p => p.1 ++ "=" ++ p.2)

/-- The query string with each value in form-urlencoded form after its key. -/
def encodedQuery (f : FilterState) : String :=
  if nonDefaultFilters f = [] then ""
  else "?" ++ "&".intercalate ((nonDefaultFilters f).map fun p => p.1 ++ "=" ++ formEncode p.2)

/-- A string made only of bytes the serialiser leaves unchanged. -/
def plainValue (s : String) : Bool :=
  s.data.all fun c => formUnreserved c.toNat

/-! ## JSON values and the JavaScript operations the script applies to them

A number `num mantissa scale` is the double that `JSON.parse` yields for the
decimal literal `mantissa / 10 ^ scale`, the double nearest to it.  What the
script computes from a number is written out where the double arithmetic is
exact (sign and zero tests, integers of magnitude up to `2 ^ 53`) and is a
service of the platform elsewhere.  The fields of an object are its own
properties in enumeration order. -/

/-- A value produced by `JSON.parse`, or `undefined` for an absent property. -/
inductive JsVal where
  | undefined : JsVal
  | null : JsVal
  | bool (b : Bool) : JsVal
  | num (mantissa : Int) (scale : Nat) : JsVal
  | str (s : String) : JsVal
  | arr (items : List JsVal) : JsVal
  | obj (fields : List (String × JsVal)) : JsVal

/-- A thrown error, identified by its `message`.  For an error the engine
raises the text is the one V8 writes where the failing expression is known
(other engines word it differently), and names the failing operation
otherwise. -/
abbrev JsError := String

/-- Services of the platform whose results depend on the locale or on
floating-point formatting; taken as parameters. -/
structure Platform where
  /-- `Number.prototype.toLocaleString()` of `mantissa / 10 ^ scale`. -/
  numberLocale : Int → Nat → String
  /-- `Number.prototype.toFixed(1)` of `mantissa / 10 ^ scale`. -/
  toFixed1 : Int → Nat → String
  /-- `Number::toString` of the double nearest to `mantissa / 10 ^ scale`,
  asked for a number that is not an integer of magnitude up to `2 ^ 53`. -/
  numberText : Int → Nat → String
  /-- `Number::toString` of the sum `x + 1` in double arithmetic, `x` the
  double nearest to `mantissa / 10 ^ scale`, asked for an `x` that is not an
  integer of magnitude up to `2 ^ 53`. -/
  plusOneText : Int → Nat → String
  /-- `ToNumber` of a string, as a decimal literal; `none` stands for `NaN`. -/
  parseNumber : String → Option (Int × Nat)
  /-- `String.prototype.toUpperCase()`. -/
  toUpperCase : String → String

namespace JsVal

/-- The double nearest to the literal `m / 10 ^ e` is zero: the literal is 0
or at most `2 ^ -1075` in magnitude (half the smallest double, a tie that
rounds to the even neighbour 0); `2 ^ 1075` is written `(2 ^ 215) ^ 5`. -/
def roundsToZero (m : Int) (e : Nat) : Bool :=
  decide (m.natAbs * (2 ^ 215) ^ 5 ≤ 10 ^ e)

/-- `ToBoolean`. -/
def truthy : JsVal → Bool
  | undefined => false
  | null => false
  | bool b => b
  | num m e => !roundsToZero m e
  | str s => decide (s ≠ "")
  | arr _ => true
  | obj _ => true

/-- The operator `a || b`. -/
def orElse (a b : JsVal) : JsVal := if a.truthy then a else b

/-- Length of a string in UTF-16 code units. -/
def utf16Length (s : String) : Nat :=
  s.data.foldl (fun n c => n + (if c.toNat < 0x10000 then 1 else 2)) 0

/-- Read of a data property `v.k`.  Reading from `undefined` or `null`
throws; arrays and strings answer `length`; any other absent property is
`undefined`. -/
def getProp (v : JsVal) (k : String) : Except JsError JsVal :=
  match v with
  | undefined => .error ("Cannot read properties of undefined (reading '" ++ k ++ "')")
  | null => .error ("Cannot read properties of null (reading '" ++ k ++ "')")
  | obj fields => .ok ((fields.lookup k).getD undefined)
  | arr items => .ok (if k = "length" then num items.length 0 else undefined)
  | str s => .ok (if k = "length" then num (utf16Length s) 0 else undefined)
  | _ => .ok undefined

/-- The receiver of an array method call (`map`, `some`, `forEach`): only an
array has these methods, on any other value the call throws; `receiver` is
the source text of the receiver expression. -/
def asArray (v : JsVal) (receiver method : String) : Except JsError (List JsVal) :=
  match v with
  | arr items => .ok items
  | undefined => .error ("Cannot read properties of undefined (reading '" ++ method ++ "')")
  | null => .error ("Cannot read properties of null (reading '" ++ method ++ "')")
  | _ => .error (receiver ++ "." ++ method ++ " is not a function")

/-- Drop trailing zero decimals of `m / 10 ^ e`. -/
def normalize (m : Int) : Nat → Int × Nat
  | 0 => (m, 0)
  | e + 1 => if m % 10 = 0 then normalize (m / 10) e else (m, e + 1)

/-- Pad a digit string with zeros on the left up to `n` digits. -/
def padLeft (n : Nat) (s : String) : String :=
  String.mk (List.replicate (n - s.length) '0') ++ s

/-- The literal `m / 10 ^ e` written in fixed decimal notation. -/
def fixedNotation (m : Int) (e : Nat) : String :=
  let p := normalize m e
  if p.2 = 0 then toString p.1
  else
    (if p.1 < 0 then "-" else "") ++ toString (p.1.natAbs / 10 ^ p.2) ++ "." ++
      padLeft p.2 (toString (p.1.natAbs % 10 ^ p.2))

/-- The largest magnitude up to which every integer is a double: `2 ^ 53`. -/
def maxSafe : Int := 9007199254740992

/-- The literal `m / 10 ^ e` is an integer of magnitude up to `2 ^ 53`, which
the double represents exactly. -/
def exactInteger (m : Int) (e : Nat) : Bool :=
  decide ((normalize m e).2 = 0 ∧ -maxSafe ≤ (normalize m e).1 ∧ (normalize m e).1 ≤ maxSafe)

/-- `Number::toString`: the decimal digits of an integer of magnitude up to
`2 ^ 53`, the text of the platform for any other number. -/
def numToString (P : Platform) (m : Int) (e : Nat) : String :=
  if exactInteger m e then toString (normalize m e).1 else P.numberText m e

/-- The text of `x + 1`.  For an integer `x` from `-2 ^ 53` to `2 ^ 53 - 1`
the sum is exact; for `x = 2 ^ 53` the sum `2 ^ 53 + 1` is no double and
rounds to the even neighbour `2 ^ 53`; any other number is left to the
platform. -/
def plusOneString (P : Platform) (m : Int) (e : Nat) : String :=
  if exactInteger m e then
    (if (normalize m e).1 = maxSafe then toString maxSafe
     else toString ((normalize m e).1 + 1))
  else P.plusOneText m e

mutual
/-- `ToString`.  An object whose own key `toString` shadows the inherited
method cannot be converted and throws. -/
def toJsString (P : Platform) : JsVal → Except JsError String
  | undefined => .ok "undefined"
  | null => .ok "null"
  | bool b => .ok (if b then "true" else "false")
  | num m e => .ok (numToString P m e)
  | str s => .ok s
  | arr items => joinComma P items
  | obj fields =>
    if fields.any (fun p => p.1 = "toString") then
      .error "Cannot convert object to primitive value"
    else .ok "[object Object]"
termination_by structural v => v
/-- `Array.prototype.join(",")`: `undefined` and `null` items give the empty
string. -/
def joinComma (P : Platform) : List JsVal → Except JsError String
  | [] => .ok ""
  | x :: rest =>
    match (match x with
      | undefined => Except.ok ""
      | null => Except.ok ""
      | v => toJsString P v) with
    | .error e => .error e
    | .ok a =>
      match joinComma P rest with
      | .error e => .error e
      | .ok b => .ok (a ++ (match rest with | [] => "" | _ => ",") ++ b)
termination_by structural l => l
end

mutual
/-- The call `v.toLocaleString()`. -/
def localeString (P : Platform) : JsVal → Except JsError String
  | undefined => .error "Cannot read properties of undefined (reading 'toLocaleString')"
  | null => .error "Cannot read properties of null (reading 'toLocaleString')"
  | bool b => .ok (if b then "true" else "false")
  | num m e => .ok (P.numberLocale m e)
  | str s => .ok s
  | arr items => localeJoin P items
  | obj fields =>
    if fields.any (fun p => p.1 = "toLocaleString" || p.1 = "toString") then
      .error "toLocaleString is not a function"
    else .ok "[object Object]"
termination_by structural v => v
/-- `Array.prototype.toLocaleString()`. -/
def localeJoin (P : Platform) : List JsVal → Except JsError String
  | [] => .ok ""
  | x :: rest =>
    match (match x with
      | undefined => Except.ok ""
      | null => Except.ok ""
      | v => localeString P v) with
    | .error e => .error e
    | .ok a =>
      match localeJoin P rest with
      | .error e => .error e
      | .ok b => .ok (a ++ (match rest with | [] => "" | _ => ",") ++ b)
termination_by structural l => l
end

/-- `ToNumber`; `none` stands for `NaN`. -/
def toNumber (P : Platform) : JsVal → Except JsError (Option (Int × Nat))
  | undefined => .ok none
  | null => .ok (some (0, 0))
  | bool b => .ok (some (if b then 1 else 0, 0))
  | num m e => .ok (some (m, e))
  | v => match toJsString P v with
    | .error e => .error e
    | .ok t => .ok (P.parseNumber t)

/-- The comparison `v > 0`. -/
def gtZero (P : Platform) (v : JsVal) : Except JsError Bool :=
  match toNumber P v with
  | .error e => .error e
  | .ok none => .ok false
  | .ok (some (m, e)) => .ok (decide (0 < m) && !roundsToZero m e)

/-- The test `v.length > 0`. -/
def lengthPositive (P : Platform) (v : JsVal) : Except JsError Bool :=
  match getProp v "length" with
  | .error e => .error e
  | .ok len => gtZero P len

end JsVal

/-! ## Page and controller state

A chart is recorded by its type, labels and datasets; the static styling
options of the configuration literals are left out.  A destroyed chart keeps
its handle and leaves its canvas blank, so `clearRect` on such a canvas
changes nothing that is recorded here. -/

/-- One dataset handed to the charting library. -/
structure Dataset where
  label : Option String
  data : JsVal
  color : Option String

/-- A chart instance created by `new Chart(ctx, config)`. -/
structure Chart where
  kind : String
  labels : JsVal
  datasets : List Dataset
  destroyed : Bool

/-- `Chart.prototype.destroy()`. -/
def Chart.destroy (c : Chart) : Chart := { c with destroyed := true }

/-- A child of `notification-container`: its type class and message. -/
structure Notification where
  kind : String
  message : String

/-- One `cluster-stat` block of a cluster-info panel. -/
structure StatEntry where
  title : String
  count : String
  avgQuantity : String
  avgRevenue : String
  totalRevenue : String

/-- A `cluster-info` panel: its `cluster-stat` blocks in order. -/
abbrev Panel := List StatEntry

/-- Content of the `top-products` element. -/
inductive TopProducts where
  | initial : TopProducts
  | placeholder : TopProducts
  | lists (byQuantity byRevenue : List String) : TopProducts

/-- An active repeating timer created by `setInterval(fetchAndRender, period)`. -/
structure Timer where
  id : Nat
  period : Nat
deriving DecidableEq, Repr

/-- The module variables of the script together with the parts of the page
and of the platform it reads and writes. -/
structure Controller where
  timeseriesChart : Option Chart
  regionPie : Option Chart
  forecastChart : Option Chart
  clusterChart : Option Chart
  pollInterval : Option Nat
  isLoading : Bool
  /-- `loading-indicator` is displayed. -/
  loadingShown : Bool
  /-- `error-message` (the banner) is displayed. -/
  errorShown : Bool
  /-- Text of `error-text`. -/
  errorText : String
  /-- `dashboard` carries the class `loading`. -/
  dashboardLoading : Bool
  notifications : List Notification
  filters : FilterState
  /-- The markup last assigned to `innerHTML` of `region-select`. -/
  regionOptionsHtml : String
  /-- The markup last assigned to `innerHTML` of `product-select`. -/
  productOptionsHtml : String
  totalRevenueText : String
  totalQuantityText : String
  popChangeText : String
  /-- Class list of the KPI element around `pop-change`. -/
  popKpiClasses : List String
  topProducts : TopProducts
  /-- The `cluster-info` panels beside the cluster chart, in document order. -/
  clusterPanels : List Panel
  /-- `enable-polling` is checked. -/
  pollingChecked : Bool
  /-- `document.hidden`. -/
  hidden : Bool
  /-- The repeating timers that are still active. -/
  intervals : List Timer
  /-- The handle the next `setInterval` returns. -/
  nextTimerId : Nat

/-- The page right after the script has run: nothing rendered, no timer. -/
def Controller.initial : Controller where
  timeseriesChart := none
  regionPie := none
  forecastChart := none
  clusterChart := none
  pollInterval := none
  isLoading := false
  loadingShown := false
  errorShown := false
  errorText := ""
  dashboardLoading := false
  notifications := []
  filters := ⟨"all", "all", "", ""⟩
  regionOptionsHtml := "<option value=\"all\">All</option>"
  productOptionsHtml := "<option value=\"all\">All</option>"
  totalRevenueText := ""
  totalQuantityText := ""
  popChangeText := ""
  popKpiClasses := ["kpi"]
  topProducts := .initial
  clusterPanels := []
  pollingChecked := false
  hidden := false
  intervals := []
  nextTimerId := 1

def ANALYTICS_API : String := "/api/analytics"

/-! ## Utility functions -/

/-- `fmtMoney(v)`. -/
def fmtMoney (P : Platform) (v : JsVal) : Except JsError String :=
  match v with
  | .undefined => .ok "—"
  | .null => .ok "—"
  | v =>
    match v.toNumber P with
    | .error e => .error e
    | .ok none => .ok "₹NaN"
    | .ok (some (m, e)) => .ok ("₹" ++ P.numberLocale m e)

/-- `showLoading()`. -/
def showLoading (s : Controller) : Controller :=
  { s with isLoading := true, loadingShown := true, errorShown := false, dashboardLoading := true }

/-- `hideLoading()`. -/
def hideLoading (s : Controller) : Controller :=
  { s with isLoading := false, loadingShown := false, dashboardLoading := false }

/-- `showNotification(message, type)`: appends a notification to the
container (its later removal, after five seconds or by its close button, is
not part of this function's synchronous effect). -/
def showNotification (message kind : String) (s : Controller) : Controller :=
  { s with notifications := s.notifications ++ [⟨kind, message⟩] }

/-- `showError(message)` for a string message. -/
def showError (message : String) (s : Controller) : Controller :=
  let s := hideLoading s
  let s := { s with errorText := message, errorShown := true }
  showNotification ("Error: " ++ message) "error" s

/-! ## Polling -/

/-- `setInterval(fetchAndRender, period)`: registers a timer and returns its
handle. -/
def setInterval (period : Nat) (s : Controller) : Controller × Nat :=
  ({ s with intervals := s.intervals ++ [⟨s.nextTimerId, period⟩],
            nextTimerId := s.nextTimerId + 1 }, s.nextTimerId)

/-- `clearInterval(handle)`. -/
def clearInterval (handle : Nat) (s : Controller) : Controller :=
  { s with intervals := s.intervals.filter (fun t => t.id ≠ handle) }

/-- Truthiness of the module variable `pollInterval` (a handle or `null`). -/
def pollIntervalSet (s : Controller) : Bool :=
  match s.pollInterval with
  | none => false
  | some h => decide (h ≠ 0)

/-- `togglePolling(enabled)`. -/
def togglePolling (enabled : Bool) (s : Controller) : Controller :=
  let s :=
    if pollIntervalSet s then
      { clearInterval (s.pollInterval.getD 0) s with pollInterval := none }
    else s
  if enabled then
    let r := setInterval 10000 s
    showNotification "Real-time updates enabled" "success" { r.1 with pollInterval := some r.2 }
  else
    showNotification "Real-time updates disabled" "info" s

/-- The `visibilitychange` listener. -/
def onVisibilityChange (s : Controller) : Controller :=
  if s.hidden && pollIntervalSet s then
    clearInterval (s.pollInterval.getD 0) s
  else if !s.hidden && s.pollingChecked then
    let r := setInterval 10000 s
    { r.1 with pollInterval := some r.2 }
  else s

/-- The events of the polling state machine. -/
inductive PollEvent where
  /-- The `change` listener of `enable-polling`, with the new checked state. -/
  | toggle (checked : Bool) : PollEvent
  /-- The tab becomes hidden. -/
  | tabHidden : PollEvent
  /-- The tab becomes visible. -/
  | tabVisible : PollEvent
deriving DecidableEq, Repr

/-- One step of the polling state machine. -/
def pollStep (s : Controller) : PollEvent → Controller
  | .toggle b => togglePolling b { s with pollingChecked := b }
  | .tabHidden => onVisibilityChange { s with hidden := true }
  | .tabVisible => onVisibilityChange { s with hidden := false }

/-- A run of the polling state machine. -/
def pollRun (s : Controller) (es : List PollEvent) : Controller :=
  es.foldl pollStep s

/-! ## `renderAnalytics`

Every block below that the script wraps in `try`/`catch` is a total function:
where the block throws, the function returns the state the block had reached
(the `console.error` of the handler is not recorded). -/

/-- The callback map `items.map(r => r.k)`. -/
def pluck (k : String) : List JsVal → Except JsError (List JsVal)
  | [] => .ok []
  | r :: rest =>
    match r.getProp k with
    | .error e => .error e
    | .ok v =>
      match pluck k rest with
      | .error e => .error e
      | .ok vs => .ok (v :: vs)

/-- The first `try` block, as a function of `data.timeseries` and the
previous chart handle. -/
def timeseriesView (timeseries : JsVal) (old : Option Chart) : Option Chart :=
  match (timeseries.orElse (.arr [])).asArray "ts" "map" with
  | .error _ => old
  | .ok items =>
    match pluck "date" items with
    | .error _ => old
    | .ok labels =>
      match pluck "revenue" items with
      | .error _ => old
      | .ok values => some ⟨"line", .arr labels, [⟨some "Revenue", .arr values, none⟩], false⟩

/-- The second `try` block, as a function of `data.region_distribution` and
the previous chart handle. -/
def regionView (distribution : JsVal) (old : Option Chart) : Option Chart :=
  match (distribution.orElse (.arr [])).asArray "rd" "map" with
  | .error _ => old
  | .ok items =>
    match pluck "region" items with
    | .error _ => old
    | .ok labels =>
      match pluck "revenue" items with
      | .error _ => old
      | .ok values => some ⟨"pie", .arr labels, [⟨none, .arr values, none⟩], false⟩

/-- The test `v.length === 0`. -/
def lengthIsZero (v : JsVal) : Except JsError Bool :=
  match v.getProp "length" with
  | .error e => .error e
  | .ok (.num m e) => .ok (JsVal.roundsToZero m e)
  | .ok _ => .ok false

/-- One item of the list of top products by quantity. -/
def qtyItem (P : Platform) (t : JsVal) : Except JsError String := do
  let product ← t.getProp "product"
  let name ← product.toJsString P
  let quantity ← t.getProp "quantity"
  let units ← quantity.localeString P
  pure (name ++ " — " ++ units ++ " units")

/-- One item of the list of top products by revenue. -/
def revItem (P : Platform) (t : JsVal) : Except JsError String := do
  let product ← t.getProp "product"
  let name ← product.toJsString P
  let revenue ← t.getProp "revenue"
  let money ← fmtMoney P revenue
  pure (name ++ " — " ++ money)

/-- The callback map `items.map(f)` for a callback that builds a string. -/
def mapItems (f : JsVal → Except JsError String) : List JsVal → Except JsError (List String)
  | [] => .ok []
  | t :: rest =>
    match f t with
    | .error e => .error e
    | .ok a =>
      match mapItems f rest with
      | .error e => .error e
      | .ok as => .ok (a :: as)

/-- The top-products `try` block, as a function of the two lists and the
previous content. -/
def topProductsView (P : Platform) (qty rev : JsVal) (old : TopProducts) : TopProducts :=
  let byQty := qty.orElse (.arr [])
  let byRev := rev.orElse (.arr [])
  let result : Except JsError TopProducts := do
    let noQty ← lengthIsZero byQty
    let noRev ← if noQty then lengthIsZero byRev else pure false
    if noQty && noRev then pure .placeholder
    else
      let qs ← byQty.asArray "byQty" "map"
      let qItems ← mapItems (qtyItem P) qs
      let rs ← byRev.asArray "byRev" "map"
      let rItems ← mapItems (revItem P) rs
      pure (.lists qItems rItems)
  match result with
  | .error _ => old
  | .ok t => t

/-- The forecast the script assumes when `data.forecast` is absent. -/
def defaultForecast : JsVal :=
  .obj [("dates", .arr []), ("values", .arr []), ("ma", .arr []),
        ("exponential_smooth", .arr []), ("seasonal", .arr [])]

/-- The test `v !== null`. -/
def notNull : JsVal → Bool
  | .null => false
  | _ => true

/-- The guard of the moving-average overlay:
`forecast.ma && forecast.ma.some(v => v !== null)`. -/
def maGuard (ma : JsVal) : Except JsError Bool :=
  if ma.truthy then
    match ma.asArray "forecast.ma" "some" with
    | .error e => .error e
    | .ok items => .ok (items.any notNull)
  else .ok false

/-- The guard of the exponential-smoothing and of the seasonal overlay:
`series && series.length > 0`. -/
def lengthGuard (P : Platform) (series : JsVal) : Except JsError Bool :=
  if series.truthy then series.lengthPositive P else .ok false

/-- The `datasets` array built for a forecast whose `dates` are not empty. -/
def forecastDatasets (P : Platform) (forecast : JsVal) : Except JsError (List Dataset) := do
  let values ← forecast.getProp "values"
  let datasets : List Dataset := [⟨some "Actual + Linear Forecast", values, none⟩]
  let ma ← forecast.getProp "ma"
  let addMa ← maGuard ma
  let datasets := if addMa then datasets ++ [⟨some "Moving Average (3)", ma, none⟩] else datasets
  let es ← forecast.getProp "exponential_smooth"
  let addEs ← lengthGuard P es
  let datasets := if addEs then datasets ++ [⟨some "Exponential Smoothing", es, none⟩] else datasets
  let seasonal ← forecast.getProp "seasonal"
  let addSeasonal ← lengthGuard P seasonal
  let datasets :=
    if addSeasonal then datasets ++ [⟨some "Seasonal Pattern", seasonal, none⟩] else datasets
  pure datasets

/-- What the forecast block draws: nothing when `dates` is empty, otherwise
the labels and the datasets. -/
def forecastPlot (P : Platform) (forecast : JsVal) :
    Except JsError (Option (JsVal × List Dataset)) := do
  let dates ← forecast.getProp "dates"
  let nonEmpty ← dates.lengthPositive P
  if nonEmpty then
    let datasets ← forecastDatasets P forecast
    pure (some (dates, datasets))
  else pure none

/-- The forecast `try` block, as a function of `data.forecast` and the
previous chart handle.  The previous chart is destroyed before anything can
throw. -/
def forecastView (P : Platform) (forecast : JsVal) (old : Option Chart) : Option Chart :=
  let old := old.map Chart.destroy
  match forecastPlot P (forecast.orElse defaultForecast) with
  | .error _ => old
  | .ok none => old
  | .ok (some (dates, datasets)) => some ⟨"line", dates, datasets, false⟩

/-- The series label `'Cluster ' + (c + 1)`. -/
def clusterLabel (P : Platform) (c : JsVal) : Except JsError String :=
  match c with
  | .undefined => .ok "Cluster NaN"
  | .null => .ok "Cluster 1"
  | .bool b => .ok (if b then "Cluster 2" else "Cluster 1")
  | .num m e => .ok ("Cluster " ++ JsVal.plusOneString P m e)
  | .str t => .ok ("Cluster " ++ t ++ "1")
  | v =>
    match v.toJsString P with
    | .error e => .error e
    | .ok t => .ok ("Cluster " ++ t ++ "1")

/-- The label and the scatter point the `forEach` callback derives from one
cluster record. -/
def clusterPoint (P : Platform) (p : JsVal) : Except JsError (String × JsVal) := do
  let cluster ← p.getProp "cluster"
  let c ← clusterLabel P cluster
  let x ← p.getProp "quantity"
  let y ← p.getProp "revenue"
  let label ← p.getProp "product"
  let avgUnitPrice ← p.getProp "avg_unit_price"
  let salesFrequency ← p.getProp "sales_frequency"
  pure (c, .obj [("x", x), ("y", y), ("label", label), ("avgUnitPrice", avgUnitPrice),
                 ("salesFrequency", salesFrequency)])

/-- The object `grouped`: its keys in insertion order, each with its points.
Every key starts with `Cluster`, so none is an array index and none meets a
member of `Object.prototype`. -/
abbrev Grouped := List (String × List JsVal)

/-- The two statements `grouped[c] = grouped[c] || []; grouped[c].push(pt)`. -/
def Grouped.push (g : Grouped) (c : String) (pt : JsVal) : Grouped :=
  match g with
  | [] => [(c, [pt])]
  | (k, pts) :: rest =>
    if k = c then (k, pts ++ [pt]) :: rest else (k, pts) :: Grouped.push rest c pt

/-- The loop `clusters.forEach(...)` from a given `grouped`. -/
def groupClusters (P : Platform) : List JsVal → Grouped → Except JsError Grouped
  | [], g => .ok g
  | p :: rest, g =>
    match clusterPoint P p with
    | .error e => .error e
    | .ok (c, pt) => groupClusters P rest (g.push c pt)

/-- The fixed palette of the cluster chart. -/
def colors : List String := ["#3b82f6", "#10b981", "#f59e0b", "#ef4444", "#8b5cf6"]

/-- The map `Object.keys(grouped).map((k, i) => ...)`, from index `i` on. -/
def clusterDatasetsFrom (i : Nat) : Grouped → List Dataset
  | [] => []
  | (k, pts) :: rest =>
    ⟨some k, .arr pts, some (colors.getD (i % colors.length) "")⟩ ::
      clusterDatasetsFrom (i + 1) rest

/-- The scatter datasets of a grouping. -/
def clusterDatasets (g : Grouped) : List Dataset := clusterDatasetsFrom 0 g

/-- `String.prototype.replace(c, d)` for one-character strings: the first
occurrence only. -/
def replaceFirst (c d : Char) : List Char → List Char
  | [] => []
  | x :: rest => if x = c then d :: rest else x :: replaceFirst c d rest

/-- The keys `Object.keys(v)` of a value, each with `v[key]`. -/
def objectEntries : JsVal → List (String × JsVal)
  | .obj fields => fields
  | .arr items => items.enum.map fun p => (toString p.1, p.2)
  | .str t => t.data.enum.map fun p => (toString p.1, .str (String.singleton p.2))
  | _ => []

/-- The `cluster-stat` block for one key of `cluster_stats`. -/
def statEntry (P : Platform) (entry : String × JsVal) : Except JsError StatEntry := do
  let title := P.toUpperCase (String.mk (replaceFirst '_' ' ' entry.1.data))
  let count ← entry.2.getProp "count"
  let countText ← count.toJsString P
  let avgQuantity ← entry.2.getProp "avg_quantity"
  let avgQuantityText ← avgQuantity.localeString P
  let avgRevenue ← entry.2.getProp "avg_revenue"
  let avgRevenueText ← avgRevenue.localeString P
  let totalRevenue ← entry.2.getProp "total_revenue"
  let totalRevenueText ← totalRevenue.localeString P
  pure ⟨title, countText, avgQuantityText, avgRevenueText, totalRevenueText⟩

/-- The loop that fills the new panel, one block per key. -/
def panelEntries (P : Platform) : List (String × JsVal) → Except JsError Panel
  | [] => .ok []
  | entry :: rest =>
    match statEntry P entry with
    | .error e => .error e
    | .ok b =>
      match panelEntries P rest with
      | .error e => .error e
      | .ok bs => .ok (b :: bs)

/-- The grouping step of the cluster block. -/
def clusterGroups (P : Platform) (clusters : JsVal) : Except JsError Grouped :=
  match clusters.asArray "clusters" "forEach" with
  | .error e => .error e
  | .ok items => groupClusters P items []

/-- The cluster `try` block, as a function of `data.clusters`,
`data.cluster_stats`, the previous chart handle and the panels on the page.
The previous chart is destroyed before anything can throw; the panel is
swapped only at the end of the branch for a non-empty `clusters`. -/
def clusterView (P : Platform) (clusters stats : JsVal) (old : Option Chart)
    (panels : List Panel) : Option Chart × List Panel :=
  let clusters := clusters.orElse (.arr [])
  let clusterStats := stats.orElse (.obj [])
  let old := old.map Chart.destroy
  match clusters.lengthPositive P with
  | .error _ => (old, panels)
  | .ok false => (old, panels)
  | .ok true =>
    match clusterGroups P clusters with
    | .error _ => (old, panels)
    | .ok grouped =>
      let chart : Option Chart := some ⟨"scatter", .undefined, clusterDatasets grouped, false⟩
      match panelEntries P (objectEntries clusterStats) with
      | .error _ => (chart, panels)
      | .ok panel => (chart, panels.tail ++ [panel])

/-- `showError(message)` when the argument is a value of the response: the
assignment to `textContent` converts it to a string, which can throw after
`hideLoading()` has run. -/
def showErrorValue (P : Platform) (message : JsVal) (s : Controller) :
    Controller × Option JsError :=
  match message.toJsString P with
  | .error e => (hideLoading s, some e)
  | .ok text => (showError text s, none)

/-- `classList.remove('positive', 'negative')`. -/
def removeTrend (classes : List String) : List String :=
  classes.filter fun c => c ≠ "positive" ∧ c ≠ "negative"

/-- `classList.add(c)`. -/
def addClass (c : String) (classes : List String) : List String :=
  if c ∈ classes then classes else classes ++ [c]

/-- The KPI statements of `renderAnalytics`, which stand outside every
`try`: a throw leaves the function with the texts written so far. -/
def kpiSection (P : Platform) (data : JsVal) (s : Controller) : Controller × Option JsError :=
  match data.getProp "kpis" with
  | .error e => (s, some e)
  | .ok kpis =>
  match kpis.getProp "total_revenue" with
  | .error e => (s, some e)
  | .ok revenue =>
  match fmtMoney P revenue with
  | .error e => (s, some e)
  | .ok revenueText =>
  let s := { s with totalRevenueText := revenueText }
  match kpis.getProp "total_quantity" with
  | .error e => (s, some e)
  | .ok quantity =>
  match (quantity.orElse (.num 0 0)).localeString P with
  | .error e => (s, some e)
  | .ok quantityText =>
  let s := { s with totalQuantityText := quantityText }
  match data.getProp "period_over_period_pct" with
  | .error e => (s, some e)
  | .ok pct =>
  match pct.orElse (.num 0 0) with
  | .num m e =>
    let s := { s with popChangeText := P.toFixed1 m e ++ "%" }
    let classes := removeTrend s.popKpiClasses
    let classes :=
      if 0 < m then addClass "positive" classes
      else if m < 0 then addClass "negative" classes
      else classes
    ({ s with popKpiClasses := classes }, none)
  | _ => (s, some "popChange.toFixed is not a function")

/-- The first `try` block of `renderAnalytics`. -/
def renderTimeseries (data : JsVal) (s : Controller) : Controller :=
  match data.getProp "timeseries" with
  | .error _ => s
  | .ok ts => { s with timeseriesChart := timeseriesView ts s.timeseriesChart }

/-- The second `try` block of `renderAnalytics`. -/
def renderRegionPie (data : JsVal) (s : Controller) : Controller :=
  match data.getProp "region_distribution" with
  | .error _ => s
  | .ok rd => { s with regionPie := regionView rd s.regionPie }

/-- The top-products `try` block of `renderAnalytics`. -/
def renderTopProducts (P : Platform) (data : JsVal) (s : Controller) : Controller :=
  match data.getProp "top_products_qty" with
  | .error _ => s
  | .ok qty =>
    match data.getProp "top_products_revenue" with
    | .error _ => s
    | .ok rev => { s with topProducts := topProductsView P qty rev s.topProducts }

/-- The forecast `try` block of `renderAnalytics`. -/
def renderForecast (P : Platform) (data : JsVal) (s : Controller) : Controller :=
  match data.getProp "forecast" with
  | .error _ => s
  | .ok forecast => { s with forecastChart := forecastView P forecast s.forecastChart }

/-- The cluster `try` block of `renderAnalytics`. -/
def renderClusters (P : Platform) (data : JsVal) (s : Controller) : Controller :=
  match data.getProp "clusters" with
  | .error _ => s
  | .ok clusters =>
    match data.getProp "cluster_stats" with
    | .error _ => s
    | .ok stats =>
      let r := clusterView P clusters stats s.clusterChart s.clusterPanels
      { s with clusterChart := r.1, clusterPanels := r.2 }

/-- The five `try` blocks of `renderAnalytics`, in order. -/
def renderViews (P : Platform) (data : JsVal) (s : Controller) : Controller :=
  renderClusters P data (renderForecast P data (renderTopProducts P data
    (renderRegionPie data (renderTimeseries data s))))

/-- `renderAnalytics(data)`: the final state and the error thrown, if any. -/
def renderAnalytics (P : Platform) (data : JsVal) (s : Controller) :
    Controller × Option JsError :=
  match data.getProp "error" with
  | .error e => (s, some e)
  | .ok err =>
    if err.truthy then showErrorValue P err s
    else
      let s := { s with errorShown := false }
      match kpiSection P data s with
      | (s, some e) => (s, some e)
      | (s, none) => (renderViews P data s, none)

/-! ## The refresh cycle -/

/-- What the awaited `fetch(...)` and `res.json()` of one request produce. -/
inductive FetchResult where
  /-- The promise of `fetch` rejects with an error of the given message. -/
  | rejected (message : String) : FetchResult
  /-- A response arrives; `body` is the outcome of `res.json()`. -/
  | response (status : Nat) (statusText : String) (body : Except JsError JsVal) : FetchResult

/-- `res.ok`: the status is in the range 200 to 299. -/
def statusOk (status : Nat) : Bool := decide (200 ≤ status ∧ status ≤ 299)

/-- The statements both loaders run on a settled request before they use
the payload: the payload, or the error thrown. -/
def checkedPayload (P : Platform) : FetchResult → Except JsError JsVal
  | .rejected message => .error message
  | .response status statusText body =>
    if statusOk status then
      match body with
      | .error e => .error e
      | .ok j =>
        match j.getProp "error" with
        | .error e => .error e
        | .ok err =>
          if err.truthy then
            match err.toJsString P with
            | .error e => .error e
            | .ok message => .error message
          else .ok j
    else .error ("HTTP " ++ toString status ++ ": " ++ statusText)

/-- The part of `fetchAndRender` up to its first `await`: the new state and
the URL requested, if a request is issued. -/
def fetchAndRenderStart (s : Controller) : Controller × Option String :=
  if s.isLoading then (s, none)
  else (showLoading s, some (ANALYTICS_API ++ buildQueryParams s.filters))

/-- The rest of the `try` block of `fetchAndRender` once the request has
settled: the state reached and the error thrown, if any. -/
def fetchAndRenderBody (P : Platform) (r : FetchResult) (s : Controller) :
    Controller × Option JsError :=
  match checkedPayload P r with
  | .error e => (s, some e)
  | .ok j =>
    match renderAnalytics P j s with
    | (s, some e) => (s, some e)
    | (s, none) =>
      (if pollIntervalSet s then s
       else showNotification "Data refreshed successfully" "success" s, none)

/-- The part of `fetchAndRender` after the request has settled: the rest of
`try`, then `catch` and `finally`. -/
def fetchAndRenderSettle (P : Platform) (r : FetchResult) (s : Controller) : Controller :=
  match fetchAndRenderBody P r s with
  | (s, some e) => hideLoading (showError ("Failed to refresh data: " ++ e) s)
  | (s, none) => hideLoading s

/-- A call of `fetchAndRender()` run to its end, the request (if one is
issued) settling with `r`: the final state and the URLs requested. -/
def fetchAndRender (P : Platform) (r : FetchResult) (s : Controller) :
    Controller × List String :=
  match fetchAndRenderStart s with
  | (s, none) => (s, [])
  | (s, some url) => (fetchAndRenderSettle P r s, [url])

/-- One option of a select, as the template literal of the script writes it:
the value is put into the markup as it is. -/
def optionMarkup (P : Platform) (r : JsVal) : Except JsError String :=
  match r.toJsString P with
  | .error e => .error e
  | .ok t => .ok ("<option value=\"" ++ t ++ "\">" ++ t ++ "</option>")

/-- The markup built for `metadata.regions` or `metadata.products`; `receiver`
is the source text of the mapped expression. -/
def optionsMarkup (P : Platform) (list : JsVal) (receiver : String) :
    Except JsError String :=
  match (list.orElse (.arr [])).asArray receiver "map" with
  | .error e => .error e
  | .ok items =>
    match mapItems (optionMarkup P) items with
    | .error e => .error e
    | .ok options => .ok ("<option value=\"all\">All</option>" ++ String.join options)

/-- `populateFilterControls(metadata)`.  The state records the markup assigned
to `innerHTML`; parsing it is left to the platform.  The markup starts with
the option `all`, which the new select therefore has selected. -/
def populateFilterControls (P : Platform) (metadata : JsVal) (s : Controller) :
    Controller × Option JsError :=
  match metadata.getProp "regions" with
  | .error e => (s, some e)
  | .ok regions =>
  match optionsMarkup P regions "(metadata.regions || [])" with
  | .error e => (s, some e)
  | .ok rs =>
  let s := { s with regionOptionsHtml := rs, filters := { s.filters with region := "all" } }
  match metadata.getProp "products" with
  | .error e => (s, some e)
  | .ok products =>
  match optionsMarkup P products "(metadata.products || [])" with
  | .error e => (s, some e)
  | .ok ps =>
  ({ s with productOptionsHtml := ps, filters := { s.filters with product := "all" } }, none)

/-- The part of `loadMetadataAndInitial` up to its first `await`: it has no
guard on the loading flag. -/
def loadMetadataAndInitialStart (s : Controller) : Controller × Option String :=
  (showLoading s, some ANALYTICS_API)

/-- The rest of the `try` block of `loadMetadataAndInitial`. -/
def loadMetadataAndInitialBody (P : Platform) (r : FetchResult) (s : Controller) :
    Controller × Option JsError :=
  match checkedPayload P r with
  | .error e => (s, some e)
  | .ok j =>
    match j.getProp "metadata" with
    | .error e => (s, some e)
    | .ok metadata =>
      match populateFilterControls P (metadata.orElse (.obj [])) s with
      | (s, some e) => (s, some e)
      | (s, none) =>
        match renderAnalytics P j s with
        | (s, some e) => (s, some e)
        | (s, none) => (showNotification "Dashboard loaded successfully" "success" s, none)

/-- The part of `loadMetadataAndInitial` after the request has settled. -/
def loadMetadataAndInitialSettle (P : Platform) (r : FetchResult) (s : Controller) : Controller :=
  match loadMetadataAndInitialBody P r s with
  | (s, some e) => hideLoading (showError ("Failed to load dashboard data: " ++ e) s)
  | (s, none) => hideLoading s

/-- The asynchronous function a pending request belongs to. -/
inductive Caller where
  | refresh : Caller
  | initialLoad : Caller
deriving DecidableEq, Repr

/-- A request that has been issued and has not settled yet. -/
structure Pending where
  caller : Caller
  url : String
deriving DecidableEq, Repr

/-- The controller together with its outstanding requests. -/
structure Sys where
  ctl : Controller
  pending : List Pending

/-- The events of the refresh state machine. -/
inductive RefreshEvent where
  /-- A trigger of `fetchAndRender` (button, shortcut, poll tick). -/
  | refresh : RefreshEvent
  /-- A trigger of `loadMetadataAndInitial` (initial load, retry button). -/
  | load : RefreshEvent
  /-- The pending request at position `i` settles with `r`. -/
  | settle (i : Nat) (r : FetchResult) : RefreshEvent

/-- One step of the refresh state machine.  The two awaits of one call
(`fetch`, then `res.json()`) are taken as one settling step. -/
def Sys.step (P : Platform) (σ : Sys) : RefreshEvent → Sys
  | .refresh =>
    match fetchAndRenderStart σ.ctl with
    | (c, none) => { σ with ctl := c }
    | (c, some url) => { ctl := c, pending := σ.pending ++ [⟨.refresh, url⟩] }
  | .load =>
    match loadMetadataAndInitialStart σ.ctl with
    | (c, none) => { σ with ctl := c }
    | (c, some url) => { ctl := c, pending := σ.pending ++ [⟨.initialLoad, url⟩] }
  | .settle i r =>
    match σ.pending.get? i with
    | none => σ
    | some p =>
      { ctl := (match p.caller with
          | .refresh => fetchAndRenderSettle P r σ.ctl
          | .initialLoad => loadMetadataAndInitialSettle P r σ.ctl),
        pending := σ.pending.eraseIdx i }

/-- A run of the refresh state machine. -/
def Sys.run (P : Platform) (σ : Sys) (es : List RefreshEvent) : Sys :=
  es.foldl (Sys.step P) σ

/-- The system right after the script has run. -/
def Sys.initial : Sys := ⟨Controller.initial, []⟩

/-! ## A sample platform -/

/-- The value of a list of decimal digits read after the number `acc`. -/
def digitsVal (l : List Char) (acc : Nat) : Nat :=
  l.foldl (fun a c => 10 * a + (c.toNat - 48)) acc

/-- Digits, least significant first, with a comma before every third one. -/
def groupFrom : Nat → List Char → List Char
  | _, [] => []
  | i, c :: rest =>
    (if i ≠ 0 ∧ i % 3 = 0 then [',', c] else [c]) ++ groupFrom (i + 1) rest

/-- A natural number with its digits grouped in thousands. -/
def groupThousands (n : Nat) : String :=
  String.mk (groupFrom 0 (toString n).data.reverse).reverse

/-- The magnitude `a / 10 ^ e` with at most `digits` fraction digits, a tie
rounded away from zero: the scaled magnitude and its scale. -/
def roundScale (a e digits : Nat) : Nat × Nat :=
  if e ≤ digits then (a, e)
  else ((2 * a + 10 ^ (e - digits)) / (2 * 10 ^ (e - digits)), digits)

/-- The en-US format of a number: grouped integer part, at most three
fraction digits. -/
def enLocale (m : Int) (e : Nat) : String :=
  let r := roundScale m.natAbs e 3
  let p := JsVal.normalize (Int.ofNat r.1) r.2
  (if m < 0 then "-" else "") ++ groupThousands (p.1.natAbs / 10 ^ p.2) ++
    (if p.2 = 0 then "" else "." ++ JsVal.padLeft p.2 (toString (p.1.natAbs % 10 ^ p.2)))

/-- A number with exactly one fraction digit. -/
def fixedOne (m : Int) (e : Nat) : String :=
  let tenths := (roundScale (m.natAbs * 10) (e + 1) 1).1
  (if m < 0 then "-" else "") ++ toString (tenths / 10) ++ "." ++ toString (tenths % 10)

/-- A plain decimal literal without sign: digits, optionally a point and
more digits. -/
def parseUnsigned (l : List Char) : Option (Int × Nat) :=
  let whole := l.takeWhile Char.isDigit
  match l.dropWhile Char.isDigit with
  | [] => if whole = [] then none else some (Int.ofNat (digitsVal whole 0), 0)
  | '.' :: fraction =>
    if fraction.all Char.isDigit ∧ (whole ≠ [] ∨ fraction ≠ []) then
      some (Int.ofNat (digitsVal (whole ++ fraction) 0), fraction.length)
    else none
  | _ => none

/-- A plain decimal literal with an optional sign; the empty string is 0. -/
def parseDecimal (t : String) : Option (Int × Nat) :=
  match t.data with
  | [] => some (0, 0)
  | '-' :: l => (parseUnsigned l).map fun p => (-p.1, p.2)
  | '+' :: l => parseUnsigned l
  | l => parseUnsigned l

/-- A sample platform for evaluating the definitions on concrete inputs.  It
writes what an en-US browser writes for the numbers used in this file:
integers of magnitude up to `2 ^ 53`, and decimals of up to fifteen digits
with at most three fraction digits (`toLocaleString`) or one (`toFixed(1)`).
Beyond that it is a stand-in: it rounds the decimal literal where a browser
rounds the double, it writes fixed notation where a browser switches to
exponent notation, it parses plain decimal literals only, and it upper-cases
ASCII letters only. -/
def Platform.plain : Platform where
  numberLocale := enLocale
  toFixed1 := fixedOne
  numberText := JsVal.fixedNotation
  plusOneText := fun m e => JsVal.fixedNotation (m + 10 ^ e) e
  parseNumber := parseDecimal
  toUpperCase := fun t => String.mk (t.data.map Char.toUpper)

/-! ## Statements compared with the code -/

/-- The four controls as key/value pairs, in the fixed order. -/
def filterPairs (f : FilterState) : List (String × String) :=
  [("region", f.region), ("product", f.product), ("from", f.fromDate), ("to", f.toDate)]

/-- The contract of `buildQueryParams` read literally: the result is the
verbatim query string, and no key whose value is `all` or empty has an entry. -/
def literalQueryContract (f : FilterState) : Prop :=
  buildQueryParams f = verbatimQuery f ∧
  ∀ p ∈ filterPairs f, (p.2 = "all" ∨ p.2 = "") → p.1 ∉ (queryEntries f).map Prod.fst

/-- The body of a response carries an `error` member. -/
def carriesErrorField : JsVal → Bool
  | .obj fields => (fields.lookup "error").isSome
  | _ => false

/-- A response with one cluster record and the statistics of its cluster. -/
def responseOneCluster : JsVal :=
  .obj [("kpis", .obj [("total_revenue", .num 125000 0), ("total_quantity", .num 340 0)]),
        ("clusters", .arr [.obj [("product", .str "A"), ("quantity", .num 340 0),
          ("revenue", .num 125000 0), ("cluster", .num 0 0),
          ("avg_unit_price", .num 3676 1), ("sales_frequency", .num 12 0)]]),
        ("cluster_stats", .obj [("cluster_0", .obj [("count", .num 1 0),
          ("avg_quantity", .num 340 0), ("avg_revenue", .num 125000 0),
          ("total_revenue", .num 125000 0)])])]

/-- A later response whose `clusters` list is empty. -/
def responseNoClusters : JsVal :=
  .obj [("kpis", .obj [("total_revenue", .num 0 0), ("total_quantity", .num 0 0)]),
        ("clusters", .arr []), ("cluster_stats", .obj [])]

/-- The member `data.k` of a response that is an object (`undefined` when
the read itself throws). -/
def subObject (data : JsVal) (k : String) : JsVal :=
  match data.getProp k with
  | .ok v => v
  | .error _ => .undefined

/-- The members other than `timeseries` of the two sample responses below:
KPIs, one region, a forecast with one date, one cluster record. -/
def sampleMembers : List (String × JsVal) :=
  [("kpis", .obj [("total_revenue", .num 125000 0), ("total_quantity", .num 340 0)]),
   ("region_distribution", .arr [.obj [("region", .str "North"), ("revenue", .num 60000 0)]]),
   ("forecast", .obj [("dates", .arr [.str "2024-01-02"]), ("values", .arr [.num 5200 0]),
      ("ma", .arr [.null]), ("exponential_smooth", .arr [.num 5100 0]),
      ("seasonal", .arr [])]),
   ("clusters", .arr [.obj [("product", .str "A"), ("quantity", .num 340 0),
      ("revenue", .num 125000 0), ("cluster", .num 0 0),
      ("avg_unit_price", .num 3676 1), ("sales_frequency", .num 12 0)]]),
   ("cluster_stats", .obj [("cluster_0", .obj [("count", .num 1 0),
      ("avg_quantity", .num 340 0), ("avg_revenue", .num 125000 0),
      ("total_revenue", .num 125000 0)])])]

/-- A response whose `timeseries` member is malformed (a number). -/
def responseBadTimeseries : JsVal :=
  .obj (("timeseries", .num 5 0) :: sampleMembers)

/-- The same response with a well-formed `timeseries` member. -/
def responseGoodTimeseries : JsVal :=
  .obj (("timeseries", .arr [.obj [("date", .str "2024-01-01"), ("revenue", .num 5000 0)]]) ::
    sampleMembers)

/-- A cluster record of the response whose cluster id is an integer. -/
structure ClusterRecord where
  product : JsVal
  quantity : JsVal
  revenue : JsVal
  cluster : Int
  avgUnitPrice : JsVal
  salesFrequency : JsVal

/-- The JSON value `v` has the members of the record `r`. -/
def ClusterRecord.Encodes (r : ClusterRecord) (v : JsVal) : Prop :=
  v.getProp "cluster" = .ok (.num r.cluster 0) ∧
  v.getProp "quantity" = .ok r.quantity ∧
  v.getProp "revenue" = .ok r.revenue ∧
  v.getProp "product" = .ok r.product ∧
  v.getProp "avg_unit_price" = .ok r.avgUnitPrice ∧
  v.getProp "sales_frequency" = .ok r.salesFrequency

/-- A record as a JSON object. -/
def ClusterRecord.toJs (r : ClusterRecord) : JsVal :=
  .obj [("product", r.product), ("quantity", r.quantity), ("revenue", r.revenue),
        ("cluster", .num r.cluster 0), ("avg_unit_price", r.avgUnitPrice),
        ("sales_frequency", r.salesFrequency)]

/-- The scatter point of a record: `x` is its quantity and `y` its revenue. -/
def ClusterRecord.point (r : ClusterRecord) : JsVal :=
  .obj [("x", r.quantity), ("y", r.revenue), ("label", r.product),
        ("avgUnitPrice", r.avgUnitPrice), ("salesFrequency", r.salesFrequency)]

/-- The label of the series for a cluster id: `Cluster ` followed by `id + 1`. -/
def seriesLabel (id : Int) : String := "Cluster " ++ toString (id + 1)

/-- The distinct members of a list, in order of first occurrence. -/
def firstOccurrences (l : List Int) : List Int :=
  l.foldl (fun acc a => if a ∈ acc then acc else acc ++ [a]) []

/-- The records partitioned by cluster id: one series per distinct id, in
order of first occurrence, each with the points of its records in input
order. -/
def partitionById (rs : List ClusterRecord) : Grouped :=
  (firstOccurrences (rs.map fun r => r.cluster)).map fun id =>
    (seriesLabel id, (rs.filter fun r => r.cluster = id).map ClusterRecord.point)

/-- Two records whose cluster ids are the neighbours `2 ^ 53 - 1` and
`2 ^ 53`. -/
def recordsAtMaxSafe : List ClusterRecord :=
  [⟨.str "A", .num 340 0, .num 125000 0, 9007199254740991, .num 3676 1, .num 12 0⟩,
   ⟨.str "B", .num 20 0, .num 900 0, 9007199254740992, .num 45 0, .num 3 0⟩]

/-- Three records in the clusters 1, 0, 1. -/
def sampleRecords : List ClusterRecord :=
  [⟨.str "A", .num 340 0, .num 125000 0, 1, .num 3676 1, .num 12 0⟩,
   ⟨.str "B", .num 20 0, .num 900 0, 0, .num 45 0, .num 3 0⟩,
   ⟨.str "C", .num 310 0, .num 99000 0, 1, .num 3193 1, .num 9 0⟩]

mutual
/-- `ToString` of the value does not throw: neither the value nor an item of
an array in it is an object with an own member named `toString`. -/
def convertsToString : JsVal → Bool
  | .arr items => allConvertToString items
  | .obj fields => !(fields.any fun p => p.1 = "toString")
  | _ => true
termination_by structural v => v
/-- Every item of the list converts to a string. -/
def allConvertToString : List JsVal → Bool
  | [] => true
  | x :: rest => convertsToString x && allConvertToString rest
termination_by structural l => l
end

mutual
/-- The call `v.toLocaleString()` does not throw on a value that is not
`undefined` or `null`: neither the value nor an item of an array in it is an
object with an own member named `toLocaleString` or `toString`. -/
def hasLocaleString : JsVal → Bool
  | .arr items => allHaveLocaleString items
  | .obj fields => !(fields.any fun p => p.1 = "toLocaleString" || p.1 = "toString")
  | _ => true
termination_by structural v => v
/-- Every item of the list has a locale string. -/
def allHaveLocaleString : List JsVal → Bool
  | [] => true
  | x :: rest => hasLocaleString x && allHaveLocaleString rest
termination_by structural l => l
end

/-- A value of `period_over_period_pct` that is a number, `null` or missing. -/
def numberOrMissing : JsVal → Bool
  | .num _ _ => true
  | .null => true
  | .undefined => true
  | _ => false

/-- An integer with the sign of the number `period_over_period_pct`: the
mantissa of the literal, 0 when the double nearest to it is 0 and when the
member is `null` or missing. -/
def pctSign : JsVal → Int
  | .num m e => if JsVal.roundsToZero m e then 0 else m
  | _ => 0

/-- The page with the KPI element in the `positive` state left by an earlier
render. -/
def pagePositive : Controller :=
  { Controller.initial with popKpiClasses := ["kpi", "positive"] }

/-- A response whose period-over-period change is -4.2. -/
def responseNegativeChange : JsVal :=
  .obj [("kpis", .obj [("total_revenue", .num 125000 0), ("total_quantity", .num 340 0)]),
        ("period_over_period_pct", .num (-42) 1)]

/-! ## Theorems -/

theorem intercalate_go_length (sep : String) (l : List String) (acc : String) :
    acc.length ≤ (String.intercalate.go acc sep l).length := by
  induction l generalizing acc with
  | nil => simp [String.intercalate.go]
  | cons a as ih =>
    simp only [String.intercalate.go]
    refine le_trans ?_ (ih _)
    simp [String.length_append]
    omega

theorem toString_eq_empty_iff (ps : URLSearchParams) :
    ps.toString = "" ↔ ps = [] := by
  constructor
  · intro h
    cases ps with
    | nil => rfl
    | cons p ps =>
      exfalso
      have hl := intercalate_go_length "&" (ps.map fun p => formEncode p.1 ++ "=" ++ formEncode p.2)
        (formEncode p.1 ++ "=" ++ formEncode p.2)
      have h2 : (URLSearchParams.toString (p :: ps)).length = 0 := by rw [h]; rfl
      simp only [URLSearchParams.toString, List.map_cons, String.intercalate] at h2
      rw [h2] at hl
      simp [String.length_append] at hl
      exact absurd hl.1.2 (by decide)
  · intro h
    subst h
    rfl

theorem queryEntries_eq (f : FilterState) : queryEntries f = nonDefaultFilters f := by
  simp only [queryEntries, nonDefaultFilters, selectDefault, dateDefault, URLSearchParams.set]
  by_cases h1 : f.region = "" <;> by_cases h2 : f.region = "all" <;>
  by_cases h3 : f.product = "" <;> by_cases h4 : f.product = "all" <;>
  by_cases h5 : f.fromDate = "" <;> by_cases h6 : f.toDate = "" <;>
  simp [h1, h2, h3, h4, h5, h6]

theorem formEncode_plain (s : String) (h : plainValue s = true) : formEncode s = s := by
  have key : ∀ l : List Char, (l.all fun c => formUnreserved c.toNat) = true →
      l.flatMap formEncodeChar = l := by
    intro l
    induction l with
    | nil => intro _; rfl
    | cons c cs ih =>
      intro hl
      simp only [List.all_cons, Bool.and_eq_true] at hl
      have hc := hl.1
      have hlt : c.toNat < 0x80 := by
        simp only [formUnreserved, Bool.or_eq_true, Bool.and_eq_true, beq_iff_eq,
          decide_eq_true_eq] at hc
        omega
      have hne : c.toNat ≠ 0x20 := by
        intro h20
        rw [h20] at hc
        exact absurd hc (by decide)
      have h1 : formEncodeChar c = [c] := by
        simp only [formEncodeChar, utf8Bytes, hlt, if_true, List.flatMap_cons, List.flatMap_nil,
          List.append_nil, formEncodeByte, hne, if_false, hc]
        simp [Char.ofNat_toNat]
      rw [List.flatMap_cons, h1, ih hl.2]
      rfl
  unfold formEncode
  rw [key s.data h]

theorem nonDefault_keys_plain (f : FilterState) :
    ∀ p ∈ nonDefaultFilters f, formEncode p.1 = p.1 := by
  intro p hp
  simp only [nonDefaultFilters, List.mem_append] at hp
  rcases hp with ((hp | hp) | hp) | hp <;>
  · split at hp
    · simp at hp
    · simp only [List.mem_singleton] at hp
      subst hp
      show formEncode _ = _
      dsimp only
      decide

theorem buildQueryParams_eq_encoded (f : FilterState) : buildQueryParams f = encodedQuery f := by
  simp only [buildQueryParams, encodedQuery, queryEntries_eq]
  by_cases h : nonDefaultFilters f = []
  · rw [h, if_pos rfl, if_neg (by decide)]
  · have hne : URLSearchParams.toString (nonDefaultFilters f) ≠ "" :=
      fun he => h ((toString_eq_empty_iff _).1 he)
    rw [if_pos hne, if_neg h]
    congr 2
    unfold URLSearchParams.toString
    congr 1
    apply List.map_congr_left
    intro p hp
    rw [nonDefault_keys_plain f p hp]

/-! ### C1: the query string -/

/-- C1 (counterexample): read literally the claim fails twice.  With `from`
set to `all` the key `from` has an entry although its value is `all`, and a
region with a space is not written verbatim: the result is
`?region=North+East`. -/
theorem buildQueryParams_literal_fails :
    buildQueryParams ⟨"all", "all", "all", ""⟩ = "?from=all" ∧
    ¬ literalQueryContract ⟨"all", "all", "all", ""⟩ ∧
    buildQueryParams ⟨"North East", "all", "", ""⟩ = "?region=North+East" ∧
    ¬ literalQueryContract ⟨"North East", "all", "", ""⟩ := by
  refine ⟨by decide, ?_, by decide, ?_⟩
  · intro h
    exact h.2 ("from", "all") (by simp [filterPairs]) (Or.inl rfl) (by decide)
  · intro h
    exact absurd h.1 (by decide)

/-- C1 (amended): `buildQueryParams` returns the empty string exactly when
every filter is at its default (region and product empty or `all`, from and
to empty); otherwise it returns `?` followed by the non-default filters, in
the order region, product, from, to, as `key=value` pairs joined by `&`, each
value in form-urlencoded form.  The entries are exactly the non-default
filters, and when every such value consists of letters, digits and the marks
`*`, `-`, `.`, `_` the values stand verbatim. -/
theorem buildQueryParams_canonical (f : FilterState) :
    queryEntries f = nonDefaultFilters f ∧
    (buildQueryParams f = "" ↔ f.allDefault = true) ∧
    buildQueryParams f =
      (if f.allDefault = true then ""
       else "?" ++ "&".intercalate
         ((nonDefaultFilters f).map fun p => p.1 ++ "=" ++ formEncode p.2)) ∧
    ((∀ p ∈ nonDefaultFilters f, plainValue p.2 = true) →
      buildQueryParams f = verbatimQuery f) := by
  have hnil : nonDefaultFilters f = [] ↔ f.allDefault = true := by
    simp only [nonDefaultFilters, FilterState.allDefault, Bool.and_eq_true]
    by_cases h1 : selectDefault f.region = true <;>
    by_cases h2 : selectDefault f.product = true <;>
    by_cases h3 : dateDefault f.fromDate = true <;>
    by_cases h4 : dateDefault f.toDate = true <;> simp [h1, h2, h3, h4]
  have henc := buildQueryParams_eq_encoded f
  refine ⟨queryEntries_eq f, ?_, ?_, ?_⟩
  · rw [← hnil, henc, encodedQuery]
    by_cases h : nonDefaultFilters f = []
    · simp [h]
    · simp only [h, if_false, iff_false]
      intro he
      have h2 : ("?" ++ "&".intercalate
          ((nonDefaultFilters f).map fun p => p.1 ++ "=" ++ formEncode p.2)).length = 0 := by
        rw [he]; rfl
      simp [String.length_append] at h2
      exact absurd h2.1 (by decide)
  · rw [henc, encodedQuery]
    by_cases h : nonDefaultFilters f = []
    · rw [if_pos h, if_pos (hnil.1 h)]
    · rw [if_neg h, if_neg (fun h2 => h (hnil.2 h2))]
  · intro hplain
    rw [henc, encodedQuery, verbatimQuery]
    by_cases h : nonDefaultFilters f = []
    · rw [if_pos h, if_pos h]
    · rw [if_neg h, if_neg h]
      congr 2
      apply List.map_congr_left
      intro p hp
      rw [formEncode_plain p.2 (hplain p hp)]

/-- C1 (witness): a region with a space, the product at its default and both
dates set. -/
theorem buildQueryParams_canonical_witness :
    buildQueryParams ⟨"North East", "all", "2024-01-01", "2024-01-31"⟩ =
      "?region=North+East&from=2024-01-01&to=2024-01-31" ∧
    queryEntries ⟨"North East", "all", "2024-01-01", "2024-01-31"⟩ =
      [("region", "North East"), ("from", "2024-01-01"), ("to", "2024-01-31")] := by
  have h := buildQueryParams_canonical ⟨"North East", "all", "2024-01-01", "2024-01-31"⟩
  exact ⟨by rw [h.2.2.1]; decide, by rw [h.1]; decide⟩

/-! ### C2 and C3: the refresh cycle -/

theorem fetchAndRender_of_thrown (P : Platform) (r : FetchResult) (s : Controller)
    (msg : JsError) (hs : s.isLoading = false) (hr : checkedPayload P r = .error msg) :
    fetchAndRender P r s =
      (hideLoading (showError ("Failed to refresh data: " ++ msg) (showLoading s)),
       [ANALYTICS_API ++ buildQueryParams s.filters]) := by
  simp [fetchAndRender, fetchAndRenderStart, hs, fetchAndRenderSettle, fetchAndRenderBody, hr]

/-- C2 (counterexample): a 200 response whose body carries an `error` member
holding the empty string is not taken as a failure: the time-series chart is
created, the banner stays hidden and the only notification is a success. -/
theorem fetchAndRender_empty_error_renders :
    carriesErrorField (.obj [("error", .str ""), ("kpis", .obj [])]) = true ∧
    Controller.initial.isLoading = false ∧
    Controller.initial.timeseriesChart.isSome = false ∧
    (fetchAndRender Platform.plain
      (.response 200 "OK" (.ok (.obj [("error", .str ""), ("kpis", .obj [])])))
      Controller.initial).1.timeseriesChart.isSome = true ∧
    (fetchAndRender Platform.plain
      (.response 200 "OK" (.ok (.obj [("error", .str ""), ("kpis", .obj [])])))
      Controller.initial).1.errorShown = false ∧
    (fetchAndRender Platform.plain
      (.response 200 "OK" (.ok (.obj [("error", .str ""), ("kpis", .obj [])])))
      Controller.initial).1.notifications.map (fun n => n.kind) = ["success"] := by
  refine ⟨rfl, rfl, rfl, rfl, rfl, rfl⟩

/-- C2 (amended): with the loading flag clear, a response that has a status
outside 200..299, or whose JSON body has a truthy `error` member (such as a
non-empty message), makes `fetchAndRender` issue its one request and finish
with the four chart handles unchanged, the banner visible, the banner text
`Failed to refresh data: ` followed by the message thrown (the text
`HTTP <status>: <statusText>` for a bad status, the member itself when it is a
string), exactly one notification added, of type `error`, and the loading
flag clear. -/
theorem fetchAndRender_failure (P : Platform) (s : Controller) (status : Nat)
    (statusText : String) (body : Except JsError JsVal)
    (hs : s.isLoading = false)
    (h : statusOk status = false ∨
      ∃ j err, body = .ok j ∧ j.getProp "error" = .ok err ∧ err.truthy = true) :
    ∃ msg : String,
      (fetchAndRender P (.response status statusText body) s).1.timeseriesChart
        = s.timeseriesChart ∧
      (fetchAndRender P (.response status statusText body) s).1.regionPie = s.regionPie ∧
      (fetchAndRender P (.response status statusText body) s).1.forecastChart
        = s.forecastChart ∧
      (fetchAndRender P (.response status statusText body) s).1.clusterChart
        = s.clusterChart ∧
      (fetchAndRender P (.response status statusText body) s).1.errorShown = true ∧
      (fetchAndRender P (.response status statusText body) s).1.errorText
        = "Failed to refresh data: " ++ msg ∧
      (fetchAndRender P (.response status statusText body) s).1.notifications
        = s.notifications ++ [⟨"error", "Error: Failed to refresh data: " ++ msg⟩] ∧
      (fetchAndRender P (.response status statusText body) s).1.isLoading = false ∧
      (fetchAndRender P (.response status statusText body) s).2
        = [ANALYTICS_API ++ buildQueryParams s.filters] ∧
      (statusOk status = false → msg = "HTTP " ++ toString status ++ ": " ++ statusText) ∧
      (statusOk status = true → ∀ j m, body = .ok j → j.getProp "error" = .ok (.str m) →
        msg = m) := by
  have key : ∃ msg, checkedPayload P (.response status statusText body) = .error msg ∧
      (statusOk status = false → msg = "HTTP " ++ toString status ++ ": " ++ statusText) ∧
      (statusOk status = true → ∀ j m, body = .ok j → j.getProp "error" = .ok (.str m) →
        msg = m) := by
    by_cases hok : statusOk status = true
    · rcases h with h | ⟨j, err, hb, he, ht⟩
      · rw [hok] at h
        exact absurd h (by decide)
      · subst hb
        cases hc : err.toJsString P with
        | error e =>
          refine ⟨e, by simp [checkedPayload, hok, he, ht, hc], by simp [hok], ?_⟩
          intro _ j2 m hj hm
          cases hj
          rw [he] at hm
          cases hm
          simp [JsVal.toJsString] at hc
        | ok t =>
          refine ⟨t, by simp [checkedPayload, hok, he, ht, hc], by simp [hok], ?_⟩
          intro _ j2 m hj hm
          cases hj
          rw [he] at hm
          cases hm
          simp [JsVal.toJsString] at hc
          exact hc.symm
    · refine ⟨"HTTP " ++ toString status ++ ": " ++ statusText,
        by simp [checkedPayload, hok], fun _ => rfl, fun h2 => absurd h2 hok⟩
  obtain ⟨msg, hc, h1, h2⟩ := key
  refine ⟨msg, ?_⟩
  rw [fetchAndRender_of_thrown P _ s msg hs hc]
  exact ⟨rfl, rfl, rfl, rfl, rfl, rfl, rfl, rfl, rfl, h1, h2⟩

/-- C2 (witness): an HTTP 500 on the fresh page. -/
theorem fetchAndRender_failure_witness :
    ∃ msg : String,
      (fetchAndRender Platform.plain (.response 500 "Internal Server Error"
        (.error "Unexpected token")) Controller.initial).1.errorText
        = "Failed to refresh data: " ++ msg ∧
      msg = "HTTP 500: Internal Server Error" := by
  obtain ⟨msg, h⟩ := fetchAndRender_failure Platform.plain Controller.initial 500
    "Internal Server Error" (.error "Unexpected token") rfl (Or.inl (by decide))
  exact ⟨msg, h.2.2.2.2.2.1, h.2.2.2.2.2.2.2.2.2.1 (by decide)⟩

/-- C3: while the loading flag is set, a call of `fetchAndRender` issues no
request and returns the state it was called in, whatever a request would
have produced. -/
theorem fetchAndRender_while_loading (P : Platform) (r : FetchResult) (s : Controller)
    (h : s.isLoading = true) :
    fetchAndRender P r s = (s, []) ∧ fetchAndRenderStart s = (s, none) := by
  simp [fetchAndRender, fetchAndRenderStart, h]

/-- C3 (witness): a second trigger right after `showLoading()`. -/
theorem fetchAndRender_while_loading_witness :
    (showLoading Controller.initial).isLoading = true ∧
    fetchAndRender Platform.plain (.response 200 "OK" (.ok (.obj [])))
      (showLoading Controller.initial) = (showLoading Controller.initial, []) :=
  ⟨rfl, (fetchAndRender_while_loading Platform.plain _ _ rfl).1⟩

/-! ### C4: overlapping requests -/

/-- C4 (failing run): a `fetchAndRender` trigger followed by a
`loadMetadataAndInitial` trigger leaves two requests outstanding; when the
first settles the loading flag is cleared although the second is still
outstanding, and a further `fetchAndRender` trigger then issues a request
beside it. -/
theorem load_ignores_loading_flag :
    (Sys.run Platform.plain Sys.initial [.refresh]).ctl.isLoading = true ∧
    (Sys.run Platform.plain Sys.initial [.refresh, .load]).pending =
      [⟨.refresh, "/api/analytics"⟩, ⟨.initialLoad, "/api/analytics"⟩] ∧
    (Sys.run Platform.plain Sys.initial
      [.refresh, .load, .settle 0 (.response 200 "OK" (.ok (.obj [("kpis", .obj [])])))]
      ).ctl.isLoading = false ∧
    (Sys.run Platform.plain Sys.initial
      [.refresh, .load, .settle 0 (.response 200 "OK" (.ok (.obj [("kpis", .obj [])])))]
      ).pending = [⟨.initialLoad, "/api/analytics"⟩] ∧
    (Sys.run Platform.plain Sys.initial
      [.refresh, .load, .settle 0 (.response 200 "OK" (.ok (.obj [("kpis", .obj [])]))),
       .refresh]).pending =
      [⟨.initialLoad, "/api/analytics"⟩, ⟨.refresh, "/api/analytics"⟩] := by
  refine ⟨rfl, by decide, rfl, by decide, by decide⟩

/-! ### C5 and C6: the polling timer -/

/-- C5 (failing run): after the box is checked while the tab is hidden and
the tab is shown again, two timers are active; `togglePolling(true)` then
leaves two active timers and `togglePolling(false)` leaves one. -/
theorem togglePolling_leaves_leaked_timer :
    (pollRun Controller.initial
      [.tabHidden, .toggle true, .tabVisible, .toggle true]).intervals =
      [⟨1, 10000⟩, ⟨3, 10000⟩] ∧
    (pollRun Controller.initial
      [.tabHidden, .toggle true, .tabVisible, .toggle false]).intervals =
      [⟨1, 10000⟩] ∧
    (pollRun Controller.initial
      [.tabHidden, .toggle true, .tabVisible, .toggle false]).pollingChecked = false := by
  decide

/-- C6 (failing run): when the box was checked while the tab was hidden, the
tab-visible event leaves two active timers with the box checked, the next
tab-hidden event leaves one of them active, and after the box is cleared a
tab-visible event still finds one active. -/
theorem visibility_leaves_leaked_timer :
    (pollRun Controller.initial [.tabHidden, .toggle true, .tabVisible]).intervals =
      [⟨1, 10000⟩, ⟨2, 10000⟩] ∧
    (pollRun Controller.initial [.tabHidden, .toggle true, .tabVisible]).pollingChecked
      = true ∧
    (pollRun Controller.initial
      [.tabHidden, .toggle true, .tabVisible, .tabHidden]).intervals = [⟨1, 10000⟩] ∧
    (pollRun Controller.initial
      [.tabHidden, .toggle true, .tabVisible, .toggle false, .tabHidden,
       .tabVisible]).intervals = [⟨1, 10000⟩] ∧
    (pollRun Controller.initial
      [.tabHidden, .toggle true, .tabVisible, .toggle false, .tabHidden,
       .tabVisible]).pollingChecked = false := by
  decide

/-! ### C7: forecast overlays -/

/-- C7 (failing input): with non-empty `dates` and all three overlay arrays
holding only `null`, the moving average is left out but exponential
smoothing and the seasonal pattern are both added. -/
theorem forecast_null_overlays_added :
    (forecastView Platform.plain
      (.obj [("dates", .arr [.str "2024-01-01"]), ("values", .arr [.num 5000 0]),
             ("ma", .arr [.null]), ("exponential_smooth", .arr [.null]),
             ("seasonal", .arr [.null])]) none).map
      (fun c => c.datasets.map (fun d => d.label)) =
    some [some "Actual + Linear Forecast", some "Exponential Smoothing",
          some "Seasonal Pattern"] := by
  rfl

/-! ### C8: isolation of the chart views -/

theorem getProp_subObject (data : JsVal) (k0 : String) (v0 : JsVal)
    (h : data.getProp k0 = .ok v0) (k : String) :
    data.getProp k = .ok (subObject data k) := by
  cases data <;> simp [JsVal.getProp, subObject] at h ⊢

theorem kpiSection_frame (P : Platform) (data : JsVal) (s : Controller) :
    (kpiSection P data s).1.timeseriesChart = s.timeseriesChart ∧
    (kpiSection P data s).1.regionPie = s.regionPie ∧
    (kpiSection P data s).1.forecastChart = s.forecastChart ∧
    (kpiSection P data s).1.clusterChart = s.clusterChart ∧
    (kpiSection P data s).1.clusterPanels = s.clusterPanels ∧
    (kpiSection P data s).1.topProducts = s.topProducts := by
  unfold kpiSection
  repeat' split
  all_goals exact ⟨rfl, rfl, rfl, rfl, rfl, rfl⟩

theorem renderViews_eq (P : Platform) (data : JsVal) (s : Controller) (k0 : String)
    (v0 : JsVal) (h : data.getProp k0 = .ok v0) :
    (renderViews P data s).timeseriesChart =
      timeseriesView (subObject data "timeseries") s.timeseriesChart ∧
    (renderViews P data s).regionPie =
      regionView (subObject data "region_distribution") s.regionPie ∧
    (renderViews P data s).forecastChart =
      forecastView P (subObject data "forecast") s.forecastChart ∧
    (renderViews P data s).clusterChart =
      (clusterView P (subObject data "clusters") (subObject data "cluster_stats")
        s.clusterChart s.clusterPanels).1 ∧
    (renderViews P data s).clusterPanels =
      (clusterView P (subObject data "clusters") (subObject data "cluster_stats")
        s.clusterChart s.clusterPanels).2 := by
  simp [renderViews, renderClusters, renderForecast, renderTopProducts, renderRegionPie,
    renderTimeseries, getProp_subObject data k0 v0 h]

/-- C8: for every error-free response on which `renderAnalytics` reaches the
chart views, the call returns normally and each of the four chart views (and
the cluster panel) is what its own `try` block makes of its own sub-object
and its own previous handle: the time series from `timeseries`, the region
chart from `region_distribution`, the forecast from `forecast`, the cluster
chart and panel from `clusters` and `cluster_stats`.  So a view that throws
on a missing or malformed sub-object is caught and changes nothing in the
other three: on two responses that agree on a view's sub-object that view
comes out the same, however the other sub-objects differ. -/
theorem renderAnalytics_isolates_views (P : Platform) (data data2 err err2 : JsVal)
    (s s1 s2 : Controller)
    (herr : data.getProp "error" = .ok err) (hfree : err.truthy = false)
    (hkpi : kpiSection P data { s with errorShown := false } = (s1, none))
    (herr2 : data2.getProp "error" = .ok err2) (hfree2 : err2.truthy = false)
    (hkpi2 : kpiSection P data2 { s with errorShown := false } = (s2, none)) :
    (renderAnalytics P data s).2 = none ∧ (renderAnalytics P data2 s).2 = none ∧
    (renderAnalytics P data s).1.timeseriesChart =
      timeseriesView (subObject data "timeseries") s.timeseriesChart ∧
    (renderAnalytics P data s).1.regionPie =
      regionView (subObject data "region_distribution") s.regionPie ∧
    (renderAnalytics P data s).1.forecastChart =
      forecastView P (subObject data "forecast") s.forecastChart ∧
    (renderAnalytics P data s).1.clusterChart =
      (clusterView P (subObject data "clusters") (subObject data "cluster_stats")
        s.clusterChart s.clusterPanels).1 ∧
    (renderAnalytics P data s).1.clusterPanels =
      (clusterView P (subObject data "clusters") (subObject data "cluster_stats")
        s.clusterChart s.clusterPanels).2 ∧
    (subObject data "timeseries" = subObject data2 "timeseries" →
      (renderAnalytics P data s).1.timeseriesChart =
        (renderAnalytics P data2 s).1.timeseriesChart) ∧
    (subObject data "region_distribution" = subObject data2 "region_distribution" →
      (renderAnalytics P data s).1.regionPie = (renderAnalytics P data2 s).1.regionPie) ∧
    (subObject data "forecast" = subObject data2 "forecast" →
      (renderAnalytics P data s).1.forecastChart =
        (renderAnalytics P data2 s).1.forecastChart) ∧
    (subObject data "clusters" = subObject data2 "clusters" →
      subObject data "cluster_stats" = subObject data2 "cluster_stats" →
      (renderAnalytics P data s).1.clusterChart =
        (renderAnalytics P data2 s).1.clusterChart ∧
      (renderAnalytics P data s).1.clusterPanels =
        (renderAnalytics P data2 s).1.clusterPanels) := by
  have key : ∀ (d e : JsVal) (t : Controller), d.getProp "error" = .ok e → e.truthy = false →
      kpiSection P d { s with errorShown := false } = (t, none) →
      (renderAnalytics P d s).2 = none ∧
      (renderAnalytics P d s).1.timeseriesChart =
        timeseriesView (subObject d "timeseries") s.timeseriesChart ∧
      (renderAnalytics P d s).1.regionPie =
        regionView (subObject d "region_distribution") s.regionPie ∧
      (renderAnalytics P d s).1.forecastChart =
        forecastView P (subObject d "forecast") s.forecastChart ∧
      (renderAnalytics P d s).1.clusterChart =
        (clusterView P (subObject d "clusters") (subObject d "cluster_stats")
          s.clusterChart s.clusterPanels).1 ∧
      (renderAnalytics P d s).1.clusterPanels =
        (clusterView P (subObject d "clusters") (subObject d "cluster_stats")
          s.clusterChart s.clusterPanels).2 := by
    intro d e t he hf hk
    have hfr := kpiSection_frame P d { s with errorShown := false }
    rw [hk] at hfr
    have f1 : t.timeseriesChart = s.timeseriesChart := hfr.1
    have f2 : t.regionPie = s.regionPie := hfr.2.1
    have f3 : t.forecastChart = s.forecastChart := hfr.2.2.1
    have f4 : t.clusterChart = s.clusterChart := hfr.2.2.2.1
    have f5 : t.clusterPanels = s.clusterPanels := hfr.2.2.2.2.1
    have hv := renderViews_eq P d t "error" e he
    rw [f1, f2, f3, f4, f5] at hv
    have hr : renderAnalytics P d s = (renderViews P d t, none) := by
      simp [renderAnalytics, he, hf, hk]
    rw [hr]
    exact ⟨rfl, hv⟩
  obtain ⟨a0, a1, a2, a3, a4, a5⟩ := key data err s1 herr hfree hkpi
  obtain ⟨b0, b1, b2, b3, b4, b5⟩ := key data2 err2 s2 herr2 hfree2 hkpi2
  refine ⟨a0, b0, a1, a2, a3, a4, a5, ?_, ?_, ?_, ?_⟩
  · intro h; rw [a1, b1, h]
  · intro h; rw [a2, b2, h]
  · intro h; rw [a3, b3, h]
  · intro h h2; rw [a4, b4, a5, b5, h, h2]; exact ⟨rfl, rfl⟩

/-- C8 (witness): a response whose `timeseries` member is a number, beside
the same response with a well-formed one.  On the malformed response the
render returns normally, the time-series view throws and keeps its empty
handle, and the region chart, the forecast chart and the cluster chart are
drawn from their sub-objects, the same as on the well-formed response. -/
theorem renderAnalytics_isolates_views_witness :
    (renderAnalytics Platform.plain responseBadTimeseries Controller.initial).2 = none ∧
    (renderAnalytics Platform.plain responseBadTimeseries
      Controller.initial).1.timeseriesChart.isSome = false ∧
    (renderAnalytics Platform.plain responseGoodTimeseries
      Controller.initial).1.timeseriesChart.isSome = true ∧
    (renderAnalytics Platform.plain responseBadTimeseries Controller.initial).1.regionPie =
      (renderAnalytics Platform.plain responseGoodTimeseries Controller.initial).1.regionPie ∧
    (renderAnalytics Platform.plain responseBadTimeseries Controller.initial).1.forecastChart =
      (renderAnalytics Platform.plain responseGoodTimeseries
        Controller.initial).1.forecastChart ∧
    (renderAnalytics Platform.plain responseBadTimeseries Controller.initial).1.clusterChart =
      (renderAnalytics Platform.plain responseGoodTimeseries
        Controller.initial).1.clusterChart ∧
    (renderAnalytics Platform.plain responseBadTimeseries Controller.initial).1.regionPie =
      some ⟨"pie", .arr [.str "North"], [⟨none, .arr [.num 60000 0], none⟩], false⟩ ∧
    (renderAnalytics Platform.plain responseBadTimeseries Controller.initial).1.forecastChart =
      some ⟨"line", .arr [.str "2024-01-02"],
        [⟨some "Actual + Linear Forecast", .arr [.num 5200 0], none⟩,
         ⟨some "Exponential Smoothing", .arr [.num 5100 0], none⟩], false⟩ ∧
    ((renderAnalytics Platform.plain responseBadTimeseries Controller.initial).1.clusterChart.map
      fun c => (c.kind, c.datasets.map fun d => d.label)) =
      some ("scatter", [some "Cluster 1"]) := by
  have h := renderAnalytics_isolates_views Platform.plain responseBadTimeseries
    responseGoodTimeseries .undefined .undefined Controller.initial
    (kpiSection Platform.plain responseBadTimeseries
      { Controller.initial with errorShown := false }).1
    (kpiSection Platform.plain responseGoodTimeseries
      { Controller.initial with errorShown := false }).1
    rfl rfl rfl rfl rfl rfl
  obtain ⟨h0, _, _, _, _, _, _, _, hr, hf, hc⟩ := h
  exact ⟨h0, rfl, rfl, hr rfl, hf rfl, (hc rfl rfl).1, rfl, rfl, rfl⟩

/-! ### C9: grouping of the cluster points -/

theorem digitChar_props : ∀ k, k < 10 → Nat.digitChar k ≠ '-' ∧ (Nat.digitChar k).toNat - 48 = k := by
  decide

theorem toDigitsCore_val (fuel : Nat) : ∀ (n : Nat) (ds : List Char), n < fuel →
    digitsVal (Nat.toDigitsCore 10 fuel n ds) 0 = digitsVal ds n := by
  induction fuel with
  | zero => intro n ds h; omega
  | succ fuel ih =>
    intro n ds h
    have hd := (digitChar_props (n % 10) (Nat.mod_lt _ (by decide))).2
    simp only [Nat.toDigitsCore]
    split
    · rename_i h0
      simp only [digitsVal, List.foldl_cons, hd]
      have : n % 10 = n := by omega
      simp [this]
    · rename_i h0
      rw [ih (n / 10) _ (by omega)]
      simp only [digitsVal, List.foldl_cons, hd]
      congr 1
      omega

theorem toDigitsCore_no_minus (fuel : Nat) : ∀ (n : Nat) (ds : List Char),
    (∀ c ∈ ds, c ≠ '-') → ∀ c ∈ Nat.toDigitsCore 10 fuel n ds, c ≠ '-' := by
  induction fuel with
  | zero => intro n ds h; simpa [Nat.toDigitsCore] using h
  | succ fuel ih =>
    intro n ds h
    have hd := (digitChar_props (n % 10) (Nat.mod_lt _ (by decide))).1
    simp only [Nat.toDigitsCore]
    split
    · intro c hc
      simp only [List.mem_cons] at hc
      rcases hc with rfl | hc
      · exact hd
      · exact h c hc
    · apply ih
      intro c hc
      simp only [List.mem_cons] at hc
      rcases hc with rfl | hc
      · exact hd
      · exact h c hc

theorem natRepr_injective (a b : Nat) (h : Nat.repr a = Nat.repr b) : a = b := by
  have ha := toDigitsCore_val (a + 1) a [] (by omega)
  have hb := toDigitsCore_val (b + 1) b [] (by omega)
  simp only [Nat.repr, Nat.toDigits] at h
  have h2 : Nat.toDigitsCore 10 (a + 1) a [] = Nat.toDigitsCore 10 (b + 1) b [] := by
    have := congrArg String.data h
    simpa [List.asString] using this
  rw [h2] at ha
  rw [ha] at hb
  simpa [digitsVal] using hb

theorem natRepr_no_minus (a : Nat) : ∀ c ∈ (Nat.repr a).data, c ≠ '-' := by
  simp only [Nat.repr, Nat.toDigits, List.asString]
  exact toDigitsCore_no_minus _ _ _ (by simp)

theorem intToString_injective (a b : Int) (h : toString a = toString b) : a = b := by
  cases a with
  | ofNat m =>
    cases b with
    | ofNat n =>
      have : Nat.repr m = Nat.repr n := h
      rw [natRepr_injective m n this]
    | negSucc n =>
      exfalso
      have h1 : (Nat.repr m).data = ("-" ++ Nat.repr (n + 1)).data := congrArg String.data h
      have := natRepr_no_minus m '-' (by rw [h1]; simp)
      exact this rfl
  | negSucc m =>
    cases b with
    | ofNat n =>
      exfalso
      have h1 : ("-" ++ Nat.repr (m + 1)).data = (Nat.repr n).data := congrArg String.data h
      have := natRepr_no_minus n '-' (by rw [← h1]; simp)
      exact this rfl
    | negSucc n =>
      have h1 : ("-" ++ Nat.repr (m + 1)).data = ("-" ++ Nat.repr (n + 1)).data := congrArg String.data h
      simp only [String.data_append, List.append_cancel_left_eq] at h1
      have h2 : Nat.repr (m + 1) = Nat.repr (n + 1) := String.ext h1
      have := natRepr_injective _ _ h2
      have : m = n := by omega
      rw [this]

theorem seriesLabel_injective (a b : Int) (h : seriesLabel a = seriesLabel b) : a = b := by
  have h1 : ("Cluster " ++ toString (a + 1)).data = ("Cluster " ++ toString (b + 1)).data :=
    congrArg String.data h
  simp only [String.data_append, List.append_cancel_left_eq] at h1
  have := intToString_injective _ _ (String.ext h1)
  omega

theorem firstOccurrences_snoc (l : List Int) (a : Int) :
    firstOccurrences (l ++ [a]) =
      if a ∈ firstOccurrences l then firstOccurrences l else firstOccurrences l ++ [a] := by
  simp [firstOccurrences, List.foldl_append]

theorem mem_firstOccurrences (l : List Int) : ∀ a : Int, a ∈ firstOccurrences l ↔ a ∈ l := by
  induction l using List.reverseRecOn with
  | nil => simp [firstOccurrences]
  | append_singleton l b ih =>
    intro a
    rw [firstOccurrences_snoc]
    by_cases hb : b ∈ firstOccurrences l
    · rw [if_pos hb, List.mem_append, ih]
      constructor
      · intro h; exact Or.inl h
      · rintro (h | h)
        · exact h
        · simp only [List.mem_singleton] at h
          rw [h]
          exact (ih b).1 hb
    · rw [if_neg hb, List.mem_append, List.mem_append, ih]

theorem nodup_firstOccurrences (l : List Int) : (firstOccurrences l).Nodup := by
  induction l using List.reverseRecOn with
  | nil => simp [firstOccurrences]
  | append_singleton l b ih =>
    rw [firstOccurrences_snoc]
    by_cases hb : b ∈ firstOccurrences l
    · rw [if_pos hb]; exact ih
    · rw [if_neg hb]
      exact List.Nodup.append ih (List.nodup_singleton b) (by simpa using hb)

theorem push_of_not_mem (g : Grouped) (k : String) (pt : JsVal) (h : ∀ p ∈ g, p.1 ≠ k) :
    g.push k pt = g ++ [(k, [pt])] := by
  induction g with
  | nil => rfl
  | cons p g ih =>
    obtain ⟨k2, pts⟩ := p
    have h1 : k2 ≠ k := h (k2, pts) (List.mem_cons_self _ _)
    simp only [Grouped.push, h1, if_false, List.cons_append]
    rw [ih (fun q hq => h q (List.mem_cons_of_mem _ hq))]

theorem push_map_of_mem (L : List Int) (f : Int → List JsVal) (c : Int) (pt : JsVal)
    (hnd : L.Nodup) (hc : c ∈ L) :
    Grouped.push (L.map fun id => (seriesLabel id, f id)) (seriesLabel c) pt =
      L.map fun id => (seriesLabel id, if id = c then f id ++ [pt] else f id) := by
  induction L with
  | nil => simp at hc
  | cons a L ih =>
    rw [List.nodup_cons] at hnd
    by_cases hac : a = c
    · subst hac
      simp only [List.map_cons, Grouped.push, if_true]
      congr 1
      apply List.map_congr_left
      intro id hid
      have : id ≠ a := fun e => hnd.1 (e ▸ hid)
      simp [this]
    · have hl : seriesLabel a ≠ seriesLabel c := fun e => hac (seriesLabel_injective _ _ e)
      have hc2 : c ∈ L := by
        rcases List.mem_cons.1 hc with e | e
        · exact absurd e.symm hac
        · exact e
      simp only [List.map_cons, Grouped.push, hl, if_false, hac]
      rw [ih hnd.2 hc2]

theorem partitionById_snoc (rs : List ClusterRecord) (r : ClusterRecord) :
    partitionById (rs ++ [r]) = (partitionById rs).push (seriesLabel r.cluster) r.point := by
  unfold partitionById
  rw [List.map_append, List.map_singleton, firstOccurrences_snoc]
  by_cases hc : r.cluster ∈ firstOccurrences (rs.map fun r => r.cluster)
  · rw [if_pos hc, push_map_of_mem _ _ _ _ (nodup_firstOccurrences _) hc]
    apply List.map_congr_left
    intro id _
    by_cases hid : id = r.cluster
    · subst hid
      simp [List.filter_append]
    · have : ¬ r.cluster = id := fun e => hid e.symm
      simp [List.filter_append, hid, this]
  · rw [if_neg hc, push_of_not_mem]
    · rw [List.map_append, List.map_singleton]
      have hnot : ∀ x ∈ rs, ¬ x.cluster = r.cluster := by
        intro x hx e
        apply hc
        rw [mem_firstOccurrences]
        exact List.mem_map.2 ⟨x, hx, e⟩
      congr 1
      · apply List.map_congr_left
        intro id hid
        have : ¬ r.cluster = id := fun e => hc (e ▸ hid)
        simp [List.filter_append, this]
      · have : rs.filter (fun x => decide (x.cluster = r.cluster)) = [] := by
          rw [List.filter_eq_nil_iff]
          intro x hx
          simpa using hnot x hx
        simp [List.filter_append, this]
    · intro p hp
      rw [List.mem_map] at hp
      obtain ⟨id, hid, rfl⟩ := hp
      intro e
      exact hc (seriesLabel_injective _ _ e ▸ hid)

theorem plusOneString_safe (P : Platform) (c : Int)
    (h : -JsVal.maxSafe ≤ c ∧ c < JsVal.maxSafe) :
    JsVal.plusOneString P c 0 = toString (c + 1) := by
  have h1 : JsVal.exactInteger c 0 = true := by
    simp only [JsVal.exactInteger, JsVal.normalize, decide_eq_true_eq]
    exact ⟨trivial, h.1, le_of_lt h.2⟩
  have h2 : c ≠ JsVal.maxSafe := ne_of_lt h.2
  simp [JsVal.plusOneString, h1, JsVal.normalize, h2]

theorem clusterPoint_of_encodes (P : Platform) (r : ClusterRecord) (v : JsVal)
    (h : r.Encodes v) (hsafe : -JsVal.maxSafe ≤ r.cluster ∧ r.cluster < JsVal.maxSafe) :
    clusterPoint P v = .ok (seriesLabel r.cluster, r.point) := by
  obtain ⟨h1, h2, h3, h4, h5, h6⟩ := h
  simp [clusterPoint, h1, h2, h3, h4, h5, h6, clusterLabel, plusOneString_safe P _ hsafe,
    seriesLabel, ClusterRecord.point, bind, Except.bind, pure, Except.pure]

theorem groupClusters_of_encodes (P : Platform) (rs : List ClusterRecord) (vs : List JsVal)
    (h : List.Forall₂ ClusterRecord.Encodes rs vs)
    (hsafe : ∀ r ∈ rs, -JsVal.maxSafe ≤ r.cluster ∧ r.cluster < JsVal.maxSafe) (g : Grouped) :
    groupClusters P vs g =
      .ok (rs.foldl (fun acc r => acc.push (seriesLabel r.cluster) r.point) g) := by
  induction h generalizing g with
  | nil => rfl
  | @cons r v rs2 vs2 hr _ ih =>
    simp only [groupClusters,
      clusterPoint_of_encodes P _ _ hr (hsafe r (List.mem_cons_self _ _)), List.foldl_cons]
    exact ih (fun x hx => hsafe x (List.mem_cons_of_mem _ hx)) _

theorem foldl_push_eq_partition (rs : List ClusterRecord) :
    rs.foldl (fun acc r => Grouped.push acc (seriesLabel r.cluster) r.point) [] =
      partitionById rs := by
  induction rs using List.reverseRecOn with
  | nil => rfl
  | append_singleton rs r ih =>
    rw [List.foldl_append, List.foldl_cons, List.foldl_nil, ih, partitionById_snoc]

theorem clusterDatasetsFrom_series (g : Grouped) : ∀ i : Nat,
    (clusterDatasetsFrom i g).map (fun d => (d.label, d.data)) =
      g.map fun p => (some p.1, JsVal.arr p.2) := by
  induction g with
  | nil => intro i; rfl
  | cons p g ih =>
    intro i
    obtain ⟨k, pts⟩ := p
    simp only [clusterDatasetsFrom, List.map_cons, ih]

theorem roundsToZero_integer (n : Nat) :
    JsVal.roundsToZero (Int.ofNat n) 0 = decide (n = 0) := by
  have hbig : 1 < (2 ^ 215) ^ 5 := by decide
  simp only [JsVal.roundsToZero, Int.natAbs_ofNat, pow_zero]
  by_cases h : n = 0
  · subst h
    simp
  · have h1 : 1 ≤ n := Nat.one_le_iff_ne_zero.2 h
    have h2 : 1 < n * (2 ^ 215) ^ 5 :=
      lt_of_lt_of_le hbig (Nat.le_mul_of_pos_left _ h1)
    simp only [h, decide_False, decide_eq_false_iff_not, not_le]
    exact h2

/-- C9 (counterexample): the integer ids `2 ^ 53 - 1` and `2 ^ 53` are
distinct, but in double arithmetic both give `id + 1 = 2 ^ 53`, so the loop
builds the single series `Cluster 9007199254740992` holding both points,
where the partition by id has two series. -/
theorem clusters_merge_at_max_safe :
    recordsAtMaxSafe.map (fun r => r.cluster) = [9007199254740991, 9007199254740992] ∧
    (clusterGroups Platform.plain (.arr (recordsAtMaxSafe.map ClusterRecord.toJs))).toOption.map
      (fun g => g.map fun p => (p.1, p.2.length)) =
      some [("Cluster 9007199254740992", 2)] ∧
    ((clusterView Platform.plain (.arr (recordsAtMaxSafe.map ClusterRecord.toJs)) .undefined
      none []).1.map fun c => c.datasets.map fun d => d.label) =
      some [some "Cluster 9007199254740992"] ∧
    (partitionById recordsAtMaxSafe).map (fun p => (p.1, p.2.length)) =
      [("Cluster 9007199254740992", 1), ("Cluster 9007199254740993", 1)] := by
  refine ⟨rfl, rfl, rfl, ?_⟩
  decide

/-- C9 (amended): for a non-empty list of cluster records whose integer ids
lie from `-2 ^ 53` to `2 ^ 53 - 1`, where `id + 1` is exact in double
arithmetic, the grouping loop succeeds and yields the partition of the
records by id, and the cluster chart becomes a scatter chart with one series
per distinct id, labelled `Cluster ` followed by `id + 1` (distinct ids have
distinct labels), in order of first occurrence of the id, the series of an id
holding the points (`x` the quantity, `y` the revenue) of exactly the records
with that id, in input order. -/
theorem clusters_partition_by_id (P : Platform) (rs : List ClusterRecord) (vs : List JsVal)
    (stats : JsVal) (old : Option Chart) (panels : List Panel)
    (hne : rs ≠ []) (henc : List.Forall₂ ClusterRecord.Encodes rs vs)
    (hsafe : ∀ r ∈ rs, -JsVal.maxSafe ≤ r.cluster ∧ r.cluster < JsVal.maxSafe) :
    clusterGroups P (.arr vs) = .ok (partitionById rs) ∧
    (clusterView P (.arr vs) stats old panels).1 =
      some ⟨"scatter", .undefined, clusterDatasets (partitionById rs), false⟩ ∧
    (clusterDatasets (partitionById rs)).map (fun d => (d.label, d.data)) =
      (firstOccurrences (rs.map fun r => r.cluster)).map (fun id =>
        (some (seriesLabel id),
         JsVal.arr ((rs.filter fun r => r.cluster = id).map ClusterRecord.point))) ∧
    (firstOccurrences (rs.map fun r => r.cluster)).Nodup ∧
    (∀ id, id ∈ firstOccurrences (rs.map fun r => r.cluster) ↔ ∃ r ∈ rs, r.cluster = id) ∧
    (∀ a b, seriesLabel a = seriesLabel b → a = b) := by
  have hg : clusterGroups P (.arr vs) = .ok (partitionById rs) := by
    simp only [clusterGroups, JsVal.asArray]
    rw [groupClusters_of_encodes P rs vs henc hsafe, foldl_push_eq_partition]
  have hlen : 0 < vs.length := by
    rw [← henc.length_eq]
    exact List.length_pos.2 hne
  have hpos : (JsVal.arr vs).lengthPositive P = .ok true := by
    have hz := roundsToZero_integer vs.length
    have hne0 : vs.length ≠ 0 := Nat.pos_iff_ne_zero.1 hlen
    simp only [JsVal.lengthPositive, JsVal.getProp, if_true, JsVal.gtZero, JsVal.toNumber]
    rw [show ((vs.length : Nat) : Int) = Int.ofNat vs.length from rfl, hz]
    simp [hne0, hlen]
  refine ⟨hg, ?_, ?_, nodup_firstOccurrences _, ?_, seriesLabel_injective⟩
  · simp only [clusterView, JsVal.orElse, JsVal.truthy, if_true, hpos, hg]
    split <;> rfl
  · rw [clusterDatasets, clusterDatasetsFrom_series, partitionById, List.map_map]
    rfl
  · intro id
    rw [mem_firstOccurrences, List.mem_map]

/-- C9 (witness): three records in the clusters 1, 0, 1 give the series
`Cluster 2` with the first and third point and then `Cluster 1` with the
second. -/
theorem clusters_partition_by_id_witness :
    sampleRecords ≠ [] ∧
    (clusterDatasets (partitionById sampleRecords)).map (fun d => d.label) =
      [some "Cluster 2", some "Cluster 1"] ∧
    clusterGroups Platform.plain (.arr (sampleRecords.map ClusterRecord.toJs)) =
      .ok (partitionById sampleRecords) ∧
    ((clusterView Platform.plain (.arr (sampleRecords.map ClusterRecord.toJs)) .undefined
      none []).1.map fun c => c.datasets.map fun d => d.label) =
      some [some "Cluster 2", some "Cluster 1"] := by
  have h := clusters_partition_by_id Platform.plain sampleRecords
    (sampleRecords.map ClusterRecord.toJs) .undefined none [] (by simp [sampleRecords])
    (by
      simp only [sampleRecords, List.map_cons, List.map_nil]
      refine .cons ?_ (.cons ?_ (.cons ?_ .nil)) <;>
        exact ⟨rfl, rfl, rfl, rfl, rfl, rfl⟩)
    (by
      intro r hr
      simp only [sampleRecords, List.mem_cons, List.mem_singleton, List.not_mem_nil,
        or_false] at hr
      rcases hr with rfl | rfl | rfl <;> decide)
  refine ⟨by simp [sampleRecords], by decide, h.1, ?_⟩
  rw [h.2.1]
  decide

/-! ### C10: the cluster-info panel -/

/-- C10 (failing run): a render of a response with one cluster puts one panel
on the page; the render of a later response whose `clusters` list is empty
returns normally and leaves that panel, built from the earlier response, in
place. -/
theorem stale_panel_survives_empty_clusters :
    (renderAnalytics Platform.plain responseOneCluster Controller.initial).1.clusterPanels =
      [[⟨"CLUSTER 0", "1", "340", "125,000", "125,000"⟩]] ∧
    (renderAnalytics Platform.plain responseNoClusters
      (renderAnalytics Platform.plain responseOneCluster Controller.initial).1).2 = none ∧
    (renderAnalytics Platform.plain responseNoClusters
      (renderAnalytics Platform.plain responseOneCluster Controller.initial).1).1.clusterPanels =
      [[⟨"CLUSTER 0", "1", "340", "125,000", "125,000"⟩]] ∧
    (renderAnalytics Platform.plain responseNoClusters
      (renderAnalytics Platform.plain responseOneCluster Controller.initial).1).1.clusterChart.map
      (fun c => c.destroyed) = some true := by
  refine ⟨rfl, rfl, rfl, rfl⟩

/-! ### C11: the class of the period-over-period KPI -/

mutual
theorem toJsString_of_converts (P : Platform) :
    ∀ v : JsVal, convertsToString v = true → ∃ t, v.toJsString P = .ok t
  | .undefined, _ => ⟨"undefined", rfl⟩
  | .null, _ => ⟨"null", rfl⟩
  | .bool b, _ => ⟨if b then "true" else "false", rfl⟩
  | .num m e, _ => ⟨JsVal.numToString P m e, rfl⟩
  | .str t, _ => ⟨t, rfl⟩
  | .arr items, h => by
    have h2 : allConvertToString items = true := by simpa [convertsToString] using h
    obtain ⟨t, ht⟩ := joinComma_of_converts P items h2
    exact ⟨t, by simpa [JsVal.toJsString] using ht⟩
  | .obj fields, h => by
    have h2 : (fields.any fun p => decide (p.1 = "toString")) = false := by
      simpa [convertsToString] using h
    exact ⟨"[object Object]", by simp only [JsVal.toJsString, h2]; rfl⟩
theorem joinComma_of_converts (P : Platform) :
    ∀ l : List JsVal, allConvertToString l = true → ∃ t, JsVal.joinComma P l = .ok t
  | [], _ => ⟨"", rfl⟩
  | x :: rest, h => by
    have h2 : convertsToString x = true ∧ allConvertToString rest = true := by
      simpa [allConvertToString] using h
    obtain ⟨t1, h1⟩ := toJsString_of_converts P x h2.1
    obtain ⟨t2, h3⟩ := joinComma_of_converts P rest h2.2
    cases x with
    | undefined => exact ⟨_, by simp only [JsVal.joinComma, h3]; rfl⟩
    | null => exact ⟨_, by simp only [JsVal.joinComma, h3]; rfl⟩
    | bool b => exact ⟨_, by simp only [JsVal.joinComma, h1, h3]; rfl⟩
    | num m e => exact ⟨_, by simp only [JsVal.joinComma, h1, h3]; rfl⟩
    | str t => exact ⟨_, by simp only [JsVal.joinComma, h1, h3]; rfl⟩
    | arr items => exact ⟨_, by simp only [JsVal.joinComma, h1, h3]; rfl⟩
    | obj fields => exact ⟨_, by simp only [JsVal.joinComma, h1, h3]; rfl⟩
end

mutual
theorem localeString_of_has (P : Platform) :
    ∀ v : JsVal, hasLocaleString v = true → v ≠ .undefined → v ≠ .null →
      ∃ t, v.localeString P = .ok t
  | .undefined, _, h, _ => absurd rfl h
  | .null, _, _, h => absurd rfl h
  | .bool b, _, _, _ => ⟨if b then "true" else "false", rfl⟩
  | .num m e, _, _, _ => ⟨P.numberLocale m e, rfl⟩
  | .str t, _, _, _ => ⟨t, rfl⟩
  | .arr items, h, _, _ => by
    have h2 : allHaveLocaleString items = true := by simpa [hasLocaleString] using h
    obtain ⟨t, ht⟩ := localeJoin_of_has P items h2
    exact ⟨t, by simpa [JsVal.localeString] using ht⟩
  | .obj fields, h, _, _ => by
    have h2 : (fields.any fun p => decide (p.1 = "toLocaleString") || decide (p.1 = "toString"))
        = false := by
      simpa [hasLocaleString] using h
    exact ⟨"[object Object]", by simp only [JsVal.localeString, h2]; rfl⟩
theorem localeJoin_of_has (P : Platform) :
    ∀ l : List JsVal, allHaveLocaleString l = true → ∃ t, JsVal.localeJoin P l = .ok t
  | [], _ => ⟨"", rfl⟩
  | x :: rest, h => by
    have h2 : hasLocaleString x = true ∧ allHaveLocaleString rest = true := by
      simpa [allHaveLocaleString] using h
    obtain ⟨t2, h3⟩ := localeJoin_of_has P rest h2.2
    cases x with
    | undefined => exact ⟨_, by simp only [JsVal.localeJoin, h3]; rfl⟩
    | null => exact ⟨_, by simp only [JsVal.localeJoin, h3]; rfl⟩
    | bool b =>
      obtain ⟨t1, h1⟩ := localeString_of_has P (.bool b) h2.1 (by simp) (by simp)
      exact ⟨_, by simp only [JsVal.localeJoin, h1, h3]; rfl⟩
    | num m e =>
      obtain ⟨t1, h1⟩ := localeString_of_has P (.num m e) h2.1 (by simp) (by simp)
      exact ⟨_, by simp only [JsVal.localeJoin, h1, h3]; rfl⟩
    | str t =>
      obtain ⟨t1, h1⟩ := localeString_of_has P (.str t) h2.1 (by simp) (by simp)
      exact ⟨_, by simp only [JsVal.localeJoin, h1, h3]; rfl⟩
    | arr items =>
      obtain ⟨t1, h1⟩ := localeString_of_has P (.arr items) h2.1 (by simp) (by simp)
      exact ⟨_, by simp only [JsVal.localeJoin, h1, h3]; rfl⟩
    | obj fields =>
      obtain ⟨t1, h1⟩ := localeString_of_has P (.obj fields) h2.1 (by simp) (by simp)
      exact ⟨_, by simp only [JsVal.localeJoin, h1, h3]; rfl⟩
end

theorem fmtMoney_of_converts (P : Platform) (v : JsVal) (h : convertsToString v = true) :
    ∃ t, fmtMoney P v = .ok t := by
  obtain ⟨t, ht⟩ := toJsString_of_converts P v h
  cases v with
  | undefined => exact ⟨_, rfl⟩
  | null => exact ⟨_, rfl⟩
  | bool b => exact ⟨_, rfl⟩
  | num m e => exact ⟨_, rfl⟩
  | str u =>
    cases hp : P.parseNumber t with
    | none => exact ⟨"₹NaN", by simp [fmtMoney, JsVal.toNumber, ht, hp]⟩
    | some q =>
      exact ⟨"₹" ++ P.numberLocale q.1 q.2, by simp [fmtMoney, JsVal.toNumber, ht, hp]⟩
  | arr items =>
    cases hp : P.parseNumber t with
    | none => exact ⟨"₹NaN", by simp [fmtMoney, JsVal.toNumber, ht, hp]⟩
    | some q =>
      exact ⟨"₹" ++ P.numberLocale q.1 q.2, by simp [fmtMoney, JsVal.toNumber, ht, hp]⟩
  | obj fields =>
    cases hp : P.parseNumber t with
    | none => exact ⟨"₹NaN", by simp [fmtMoney, JsVal.toNumber, ht, hp]⟩
    | some q =>
      exact ⟨"₹" ++ P.numberLocale q.1 q.2, by simp [fmtMoney, JsVal.toNumber, ht, hp]⟩

theorem localeString_orElse_of_has (P : Platform) (v : JsVal)
    (h : hasLocaleString v = true) :
    ∃ t, (v.orElse (.num 0 0)).localeString P = .ok t := by
  by_cases ht : v.truthy = true
  · have h1 : v.orElse (.num 0 0) = v := by simp [JsVal.orElse, ht]
    rw [h1]
    apply localeString_of_has P v h
    · intro e; rw [e] at ht; simp [JsVal.truthy] at ht
    · intro e; rw [e] at ht; simp [JsVal.truthy] at ht
  · have h1 : v.orElse (.num 0 0) = .num 0 0 := by simp [JsVal.orElse, ht]
    rw [h1]
    exact ⟨P.numberLocale 0 0, rfl⟩

theorem orElse_numberOrMissing (pct : JsVal) (h : numberOrMissing pct = true) :
    ∃ e, pct.orElse (.num 0 0) = .num (pctSign pct) e := by
  cases pct with
  | undefined => exact ⟨0, rfl⟩
  | null => exact ⟨0, rfl⟩
  | num m e =>
    by_cases hz : JsVal.roundsToZero m e = true
    · exact ⟨0, by simp [JsVal.orElse, JsVal.truthy, hz, pctSign]⟩
    · exact ⟨e, by simp [JsVal.orElse, JsVal.truthy, hz, pctSign]⟩
  | bool b => simp [numberOrMissing] at h
  | str t => simp [numberOrMissing] at h
  | arr items => simp [numberOrMissing] at h
  | obj fields => simp [numberOrMissing] at h

theorem mem_removeTrend (classes : List String) (c : String) :
    c ∈ removeTrend classes ↔ c ∈ classes ∧ c ≠ "positive" ∧ c ≠ "negative" := by
  simp [removeTrend, List.mem_filter]

theorem mem_addClass (classes : List String) (c d : String) :
    d ∈ addClass c classes ↔ d ∈ classes ∨ d = c := by
  unfold addClass
  split
  · rename_i h
    constructor
    · intro hd; exact Or.inl hd
    · rintro (hd | hd)
      · exact hd
      · rw [hd]; exact h
  · simp [List.mem_append]

theorem renderViews_popKpiClasses (P : Platform) (data : JsVal) (s : Controller) :
    (renderViews P data s).popKpiClasses = s.popKpiClasses := by
  unfold renderViews renderClusters renderForecast renderTopProducts renderRegionPie
    renderTimeseries
  repeat' split
  all_goals rfl

theorem renderAnalytics_popKpiClasses (P : Platform) (data err pct : JsVal)
    (fields : List (String × JsVal)) (s : Controller)
    (herr : data.getProp "error" = .ok err) (hfree : err.truthy = false)
    (hkpis : data.getProp "kpis" = .ok (.obj fields))
    (hrev : convertsToString (subObject (.obj fields) "total_revenue") = true)
    (hqty : hasLocaleString (subObject (.obj fields) "total_quantity") = true)
    (hpct : data.getProp "period_over_period_pct" = .ok pct)
    (hnum : numberOrMissing pct = true) :
    (renderAnalytics P data s).2 = none ∧
    (renderAnalytics P data s).1.popKpiClasses =
      (if 0 < pctSign pct then addClass "positive" (removeTrend s.popKpiClasses)
       else if pctSign pct < 0 then addClass "negative" (removeTrend s.popKpiClasses)
       else removeTrend s.popKpiClasses) := by
  have hr : (JsVal.obj fields).getProp "total_revenue" =
      .ok (subObject (.obj fields) "total_revenue") := by
    simp [JsVal.getProp, subObject]
  have hq : (JsVal.obj fields).getProp "total_quantity" =
      .ok (subObject (.obj fields) "total_quantity") := by
    simp [JsVal.getProp, subObject]
  obtain ⟨rt, hrt⟩ := fmtMoney_of_converts P _ hrev
  obtain ⟨qt, hqt⟩ := localeString_orElse_of_has P _ hqty
  obtain ⟨e, he⟩ := orElse_numberOrMissing pct hnum
  have hv := renderViews_popKpiClasses P data
  simp [renderAnalytics, herr, hfree, kpiSection, hkpis, hr, hrt, hq, hqt, hpct, he, hv]

/-- C11: for every error-free response whose `kpis` member is an object and
whose `period_over_period_pct` is a number, `null` or missing, and for every
prior class list of the KPI element, `renderAnalytics` returns normally and
afterwards the element carries `positive` exactly when the number is greater
than 0 and `negative` exactly when it is less than 0, never both, and
neither when it is 0, `null` or missing.  The two totals may be any JSON
values the two text statements before the class update can write, that is,
any values in which no object shadows `toString` (or `toLocaleString`, for
the quantity). -/
theorem popKpi_class_follows_sign (P : Platform) (data err pct : JsVal)
    (fields : List (String × JsVal)) (s : Controller)
    (herr : data.getProp "error" = .ok err) (hfree : err.truthy = false)
    (hkpis : data.getProp "kpis" = .ok (.obj fields))
    (hrev : convertsToString (subObject (.obj fields) "total_revenue") = true)
    (hqty : hasLocaleString (subObject (.obj fields) "total_quantity") = true)
    (hpct : data.getProp "period_over_period_pct" = .ok pct)
    (hnum : numberOrMissing pct = true) :
    (renderAnalytics P data s).2 = none ∧
    ("positive" ∈ (renderAnalytics P data s).1.popKpiClasses ↔ 0 < pctSign pct) ∧
    ("negative" ∈ (renderAnalytics P data s).1.popKpiClasses ↔ pctSign pct < 0) ∧
    ¬ ("positive" ∈ (renderAnalytics P data s).1.popKpiClasses ∧
       "negative" ∈ (renderAnalytics P data s).1.popKpiClasses) ∧
    (pctSign pct = 0 →
      "positive" ∉ (renderAnalytics P data s).1.popKpiClasses ∧
      "negative" ∉ (renderAnalytics P data s).1.popKpiClasses) := by
  obtain ⟨h0, hc⟩ :=
    renderAnalytics_popKpiClasses P data err pct fields s herr hfree hkpis hrev hqty hpct hnum
  have hpos : "positive" ∈ (renderAnalytics P data s).1.popKpiClasses ↔ 0 < pctSign pct := by
    rw [hc]
    by_cases h1 : 0 < pctSign pct
    · simp [h1, mem_addClass]
    · by_cases h2 : pctSign pct < 0
      · simp [h1, h2, mem_addClass, mem_removeTrend]
      · simp [h1, h2, mem_removeTrend]
  have hneg : "negative" ∈ (renderAnalytics P data s).1.popKpiClasses ↔ pctSign pct < 0 := by
    rw [hc]
    by_cases h1 : 0 < pctSign pct
    · have h2 : ¬ pctSign pct < 0 := by omega
      simp [h1, h2, mem_addClass, mem_removeTrend]
    · by_cases h2 : pctSign pct < 0
      · simp [h1, h2, mem_addClass]
      · simp [h1, h2, mem_removeTrend]
  refine ⟨h0, hpos, hneg, ?_, ?_⟩
  · rw [hpos, hneg]
    omega
  · intro hz
    rw [hpos, hneg]
    omega

/-- C11 (witness): the change -4.2 rendered on a page whose KPI element
carries `positive` leaves it with `negative` and without `positive`. -/
theorem popKpi_class_follows_sign_witness :
    pctSign (.num (-42) 1) < 0 ∧
    "negative" ∈ (renderAnalytics Platform.plain responseNegativeChange
      pagePositive).1.popKpiClasses ∧
    "positive" ∉ (renderAnalytics Platform.plain responseNegativeChange
      pagePositive).1.popKpiClasses ∧
    (renderAnalytics Platform.plain responseNegativeChange pagePositive).1.popKpiClasses =
      ["kpi", "negative"] ∧
    (renderAnalytics Platform.plain responseNegativeChange pagePositive).1.popChangeText =
      "-4.2%" := by
  have h := popKpi_class_follows_sign Platform.plain responseNegativeChange .undefined
    (.num (-42) 1) [("total_revenue", .num 125000 0), ("total_quantity", .num 340 0)]
    pagePositive rfl rfl rfl rfl rfl rfl rfl
  exact ⟨by decide, h.2.2.1.2 (by decide), fun hp => absurd (h.2.1.1 hp) (by decide), rfl,
    rfl⟩

end Dashboard
